import Mathlib

/-!
# Lunar landing game: physics integrator and collision resolver

A shallow embedding of `src/ofApp.cpp` / `src/ofApp.h`.  The C++ `float`
fields are read as exact rationals, vectors are triples of rationals, and the
mutable `Ship` / `ofApp` objects become records that every member function
takes and returns.
-/

namespace LunarLander

/-! ## Vectors and boxes -/

/-- Three component vector (`ofVec3f` / `glm::vec3`), components read as exact rationals. -/
structure Vec3 where
  x : ℚ
  y : ℚ
  z : ℚ
  deriving DecidableEq

namespace Vec3

/-- The vector `(0, 0, 0)`, the value of a default constructed `ofVec3f`. -/
def zero : Vec3 := ⟨0, 0, 0⟩

/-- Componentwise sum, `a + b`. -/
def add (a b : Vec3) : Vec3 := ⟨a.x + b.x, a.y + b.y, a.z + b.z⟩

/-- Vector times scalar, `v * k`. -/
def scale (v : Vec3) (k : ℚ) : Vec3 := ⟨v.x * k, v.y * k, v.z * k⟩

/-- Scalar times vector, `k * v`. -/
def smul (k : ℚ) (v : Vec3) : Vec3 := ⟨k * v.x, k * v.y, k * v.z⟩

/-- Vector divided by scalar, `v / k`. -/
def div (v : Vec3) (k : ℚ) : Vec3 := ⟨v.x / k, v.y / k, v.z / k⟩

/-- Dot product, `a.dot(b)`. -/
def dot (a b : Vec3) : ℚ := a.x * b.x + a.y * b.y + a.z * b.z

end Vec3

/-- The `Box` of `box.h`: two corner points, `parameters[0]` and `parameters[1]`. -/
structure Box where
  min : Vec3
  max : Vec3
  deriving DecidableEq

/-- Modelled from the spec: `Box::overlap` (box.h is not among the sources) is
true iff the extents of the two boxes intersect on all three axes, bounds
inclusive. -/
def Box.overlap (a b : Box) : Bool :=
  decide (a.min.x ≤ b.max.x ∧ b.min.x ≤ a.max.x ∧
          a.min.y ≤ b.max.y ∧ b.min.y ≤ a.max.y ∧
          a.min.z ≤ b.max.z ∧ b.min.z ≤ a.max.z)

/-! ## The ship -/

/-- What this program reads and writes of the `ofxAssimpModelLoader` holding the
lander model: the static scene extents, the placement, and whether `clear()`
has emptied it. -/
structure Model where
  sceneMin : Vec3
  sceneMax : Vec3
  pos : Vec3
  rotAngle : ℚ
  cleared : Bool
  deriving DecidableEq

/-- The effect of `shipModel.clear()` recorded here: the model is marked emptied. -/
def Model.clear (m : Model) : Model := { m with cleared := true }

/-- The fields of `class Ship` (ofApp.h). -/
structure Ship where
  shipModel : Model
  shipBBox : Box
  position : Vec3
  velocity : Vec3
  acceleration : Vec3
  rotation : ℚ
  turnVelocity : ℚ
  turnAcceleration : ℚ
  shipSelected : Bool
  shipLoaded : Bool
  thrust : ℚ
  appliedThrust : Vec3
  gravity : Vec3
  impulseForce : Vec3
  forces : Vec3
  damping : ℚ
  landed : Bool
  fuel : ℚ
  deriving DecidableEq

namespace Ship

/-- The accessor `Ship::getShipLoaded`. -/
def getShipLoaded (s : Ship) : Bool := s.shipLoaded

/-- The accessor `Ship::getPosition`. -/
def getPosition (s : Ship) : Vec3 := s.position

/-- The accessor `Ship::getShipModel` (called only when the ship is loaded). -/
def getShipModel (s : Ship) : Model := s.shipModel

/-- The method `Ship::setPosition`: only a loaded ship is moved, together with its model. -/
def setPosition (s : Ship) (newPos : Vec3) : Ship :=
  if s.getShipLoaded then
    { s with position := newPos, shipModel := { s.shipModel with pos := newPos } }
  else s

/-- The method `Ship::setRotation`: copies the heading to the model of a loaded ship. -/
def setRotation (s : Ship) : Ship :=
  if s.getShipLoaded then
    { s with shipModel := { s.shipModel with rotAngle := s.rotation } }
  else s

/-- The method `Ship::addForces`: `forces = gravity + appliedThrust + impulseForce`. -/
def addForces (s : Ship) : Ship :=
  { s with forces := (s.gravity.add s.appliedThrust).add s.impulseForce }

/-- The method `Ship::integrate`, statement by statement. -/
def integrate (s : Ship) : Ship :=
  -- this->setPosition(this->getPosition() + this->velocity * 1.0 / 60.0);
  let s1 := s.setPosition (s.getPosition.add ((s.velocity.scale 1).div 60))
  -- addForces();
  let s2 := s1.addForces
  -- ofVec3f accel = acceleration + forces;
  let accel := s2.acceleration.add s2.forces
  -- this->velocity = this->velocity + accel * (1.0 / 60.0);
  let s3 := { s2 with velocity := s2.velocity.add (accel.scale (1 / 60)) }
  -- this->velocity = this->velocity * this->damping;
  let s4 := { s3 with velocity := s3.velocity.scale s3.damping }
  -- impulseForce.set(0, 0, 0); forces.set(0, 0, 0);
  { s4 with impulseForce := ⟨0, 0, 0⟩, forces := ⟨0, 0, 0⟩ }

/-- The method `Ship::integrateTurn`, statement by statement. -/
def integrateTurn (s : Ship) : Ship :=
  -- this->rotation = this->rotation + this->turnVelocity * 1.0 / 60.0;
  let s1 := { s with rotation := s.rotation + s.turnVelocity * 1 / 60 }
  -- this->setRotation();
  let s2 := s1.setRotation
  -- this->turnVelocity = this->turnVelocity + this->turnAcceleration * (1.0 / 60.0);
  let s3 := { s2 with turnVelocity := s2.turnVelocity + s2.turnAcceleration * (1 / 60) }
  -- this->turnVelocity = this->turnVelocity * this->damping;
  { s3 with turnVelocity := s3.turnVelocity * s3.damping }

/-- The method `Ship::updateBoundingBox`: the model extents moved to the current position. -/
def updateBoundingBox (s : Ship) : Ship :=
  if s.getShipLoaded then
    let mn := s.getShipModel.sceneMin.add s.getPosition
    let mx := s.getShipModel.sceneMax.add s.getPosition
    { s with shipBBox := ⟨⟨mn.x, mn.y, mn.z⟩, ⟨mx.x, mx.y, mx.z⟩⟩ }
  else s

end Ship

/-! ## The application state -/

/-- Modelled from the spec: the `ParticleEmitter` class (ParticleEmitter.h is not
among the sources).  The spec describes its one-shot trigger as a persistent
boolean flag: `started` is raised by `start()` and nothing in a simulation tick
lowers it. -/
structure ParticleEmitter where
  started : Bool
  oneShot : Bool
  position : Vec3
  velocity : Vec3
  deriving DecidableEq

namespace ParticleEmitter

/-- Modelled from the spec: `ParticleEmitter::start` (not among the sources) raises
the persistent `started` flag. -/
def start (e : ParticleEmitter) : ParticleEmitter := { e with started := true }

/-- Modelled from the spec: `ParticleEmitter::update` (not among the sources)
advances particles only; the persistent `started` flag and the settings stay as
they are. -/
def update (e : ParticleEmitter) : ParticleEmitter := e

/-- The setter `setPosition` of the emitter. -/
def setPosition (e : ParticleEmitter) (p : Vec3) : ParticleEmitter := { e with position := p }

/-- The setter `setOneShot` of the emitter. -/
def setOneShot (e : ParticleEmitter) (b : Bool) : ParticleEmitter := { e with oneShot := b }

/-- The setter `setVelocity` of the emitter. -/
def setVelocity (e : ParticleEmitter) (v : Vec3) : ParticleEmitter := { e with velocity := v }

end ParticleEmitter

/-- The terrain index as the simulation sees it (Octree.h is not among the
sources, so its two queries are parameters): `boxQuery b` lists the leaf boxes
that `Octree::intersect(b, root, list)` appends, and `rayQuery p` is the terrain
vertex that the sensor ray cast from the top camera at `p` selects, if any. -/
structure World where
  boxQuery : Box → List Box
  rayQuery : Vec3 → Option Vec3

/-- Modelled from the spec: `Octree::intersect(box, root, list)` (Octree.h is not
among the sources) appends every overlapping leaf box to the list and returns
`false` exactly when no leaf overlaps. -/
def Octree.intersect (w : World) (b : Box) (boxList : List Box) : Bool × List Box :=
  (!(w.boxQuery b).isEmpty, boxList ++ w.boxQuery b)

/-- The fields of `class ofApp` (ofApp.h) that the simulation and the input
handlers use.  `topPos` is the position of the camera `top`; `boomPlayed` counts
the calls of `boom.play()` made so far. -/
structure App where
  lander : Ship
  colBoxList : List Box
  inBounds : Bool
  showNearest : Bool
  pointSelected : Bool
  emitter : ParticleEmitter
  explosion : ParticleEmitter
  keymap : Int → Bool
  validLandingArea : Box
  altitude : ℚ
  gameOver : Bool
  standBy : Bool
  exploded : Bool
  topPos : Vec3
  boomPlayed : Nat

/-- The method `ofApp::checkCollisions`, statement by statement. -/
def checkCollisions (w : World) (a : App) : App :=
  -- colBoxList.clear();
  let a1 := { a with colBoxList := [] }
  -- octree.intersect(lander->shipBBox, octree.root, colBoxList) && lander->velocity.y < 0
  let r := Octree.intersect w a1.lander.shipBBox a1.colBoxList
  let a2 := { a1 with colBoxList := r.2 }
  if r.1 && decide (a2.lander.velocity.y < 0) then
    let norm : Vec3 := ⟨0, 1, 0⟩
    let vel := a2.lander.velocity
    -- lander->impulseForce = 60 * (1.85)*((-vel.dot(norm))*norm);
    let a3 := { a2 with lander :=
      { a2.lander with impulseForce := Vec3.smul (60 * 1.85) (Vec3.smul (-(vel.dot norm)) norm) } }
    if a3.lander.impulseForce.y < 500 ∧ a3.lander.impulseForce.y > 0 then
      if a3.gameOver = false then
        { a3 with lander := { a3.lander with thrust := 0, landed := true } }
      else a3
    else if a3.lander.impulseForce.y > 800 then
      if !a3.explosion.started then
        -- lander->shipModel.clear(); boom.play(); explosion.start(); exploded = true;
        { a3 with
            lander := { a3.lander with shipModel := a3.lander.shipModel.clear }
            boomPlayed := a3.boomPlayed + 1
            explosion := a3.explosion.start
            exploded := true }
      else a3
    else a3
  else a2

/-- The method `ofApp::raySelectLine`: the sensor ray cast from the camera `top`;
on a hit the selected terrain vertex is written to `pointRet`. -/
def raySelectLine (w : World) (a : App) (pointRet : Vec3) : App × Vec3 × Bool :=
  let hit := w.rayQuery a.topPos
  let a1 := { a with pointSelected := hit.isSome }
  match hit with
  | some v => (a1, v, true)
  | none => (a1, pointRet, false)

/-- The method `ofApp::update`, statement by statement (the light placement,
which touches nothing else, is left out). -/
def update (w : World) (a : App) : App :=
  if !a.gameOver && !a.standBy then
    -- lander->updateBoundingBox();
    let a1 := { a with lander := a.lander.updateBoundingBox }
    -- inBounds = lander->shipBBox.overlap(validLandingArea)
    let a2 := { a1 with inBounds := a1.lander.shipBBox.overlap a1.validLandingArea }
    -- this->checkCollisions(); lander->integrate(); lander->integrateTurn();
    let a3 := checkCollisions w a2
    let a4 := { a3 with lander := a3.lander.integrate }
    let a5 := { a4 with lander := a4.lander.integrateTurn }
    -- cameras follow a loaded lander
    let a6 := if a5.lander.getShipLoaded then { a5 with topPos := a5.lander.getPosition } else a5
    -- ofVec3f p; raySelectLine(p); altitude = lander->getPosition().y - p.y;
    let r := raySelectLine w a6 Vec3.zero
    let a7 := { r.1 with altitude := r.1.lander.getPosition.y - r.2.1.y }
    -- exhaust and explosion emitters
    let ep := (⟨a7.lander.getPosition.x, a7.lander.getPosition.y + 2.5, a7.lander.getPosition.z⟩ : Vec3)
    let a8 := { a7 with emitter :=
      (((a7.emitter.setPosition ep).setOneShot true).setVelocity ⟨0, -25, 0⟩).update }
    let a9 := { a8 with explosion :=
      (((a8.explosion.setPosition ep).setOneShot true).setVelocity ⟨0, -25, 0⟩).update }
    -- if (lander->landed) gameOver = true;
    let a10 := if a9.lander.landed then { a9 with gameOver := true } else a9
    -- if (exploded) lander->thrust = 0;
    if a10.exploded then { a10 with lander := { a10.lander with thrust := 0 } } else a10
  else a

/-- A run of simulation ticks, one call of `update` per entry, oldest first; each
tick may see its own terrain answers. -/
def runTicks : List World → App → App
  | [], a => a
  | w :: ws, a => runTicks ws (update w a)

/-- The fixed time step of the integrator, one sixtieth of a second. -/
def dt : ℚ := 1 / 60

/-! ## Keyboard input, start-up and the game-over text -/

namespace Key

/-- The character `' '`. -/
def space : Int := 32
/-- The character `'A'`. -/
def A : Int := 65
/-- The character `'a'`. -/
def a : Int := 97
/-- The character `'D'`. -/
def D : Int := 68
/-- The character `'d'`. -/
def d : Int := 100
/-- The character `'E'`. -/
def E : Int := 69
/-- The character `'e'`. -/
def e : Int := 101
/-- The character `'R'`. -/
def R : Int := 82
/-- The character `'r'`. -/
def r : Int := 114
/-- The character `'S'`. -/
def S : Int := 83
/-- The character `'s'`. -/
def s : Int := 115
/-- The character `'W'`. -/
def W : Int := 87
/-- The character `'w'`. -/
def w : Int := 119

end Key

/-- What the host framework supplies and the sources only name: the codes of
the special keys (`OF_KEY_LEFT`, `OF_KEY_RIGHT`, `OF_KEY_UP`, `OF_KEY_DOWN`),
the model that loading `geo/lander.obj` yields and whether that load succeeds. -/
structure Host where
  keyLeft : Int
  keyRight : Int
  keyUp : Int
  keyDown : Int
  landerModel : Model
  landerLoads : Bool

/-- The method `ofApp::keyPressed`, branch by branch in source order.  The
branches that only switch display options, cameras or the screenshot (J, L, B,
C, F, O, P, T, V, Q, control, F1 to F5) touch no field of the simulation and are
left out. -/
def keyPressed (h : Host) (key : Int) (a : App) : App :=
  -- keymap[key] = true;
  let a0 := { a with keymap := Function.update a.keymap key true }
  -- if (keymap['E'] | keymap['e']) showNearest = !showNearest;
  let a1 := if a0.keymap Key.E || a0.keymap Key.e then
      { a0 with showNearest := !a0.showNearest } else a0
  -- if (keymap['R'] | keymap['r']) { if (gameOver) { ... } }
  let a2 := if a1.keymap Key.R || a1.keymap Key.r then
      if a1.gameOver then
        let b := { a1 with exploded := false, gameOver := false, inBounds := false,
                           showNearest := false }
        -- lander->shipModel.loadModel("geo/lander.obj");
        let l1 := { b.lander with shipModel := h.landerModel }
        let l2 := { l1 with thrust := 25, acceleration := ⟨0, 0, 0⟩, turnVelocity := 0,
                            velocity := ⟨0, 0, 0⟩, rotation := 0 }
        -- lander->setPosition(ofVec3f(-50, 30, -50));
        let l3 := l2.setPosition ⟨-50, 30, -50⟩
        { b with lander := { l3 with fuel := 200, landed := false, shipSelected := false } }
      else a1
    else a1
  -- if (keymap[' ']) { if (lander->fuel > 0 && !exploded) { ... } if (standBy) ... }
  let a3 := if a2.keymap Key.space then
      let b := if a2.lander.fuel > 0 ∧ a2.exploded = false then
          { a2 with
              emitter := if !a2.emitter.started then a2.emitter.start else a2.emitter
              lander := { a2.lander with
                            appliedThrust := Vec3.smul a2.lander.thrust ⟨0, 1, 0⟩
                            fuel := a2.lander.fuel - 1 } }
        else a2
      if b.standBy then { b with standBy := !b.standBy } else b
    else a2
  -- W, S, D, A
  let a4 := if a3.keymap Key.W || a3.keymap Key.w then
      { a3 with lander := { a3.lander with
          appliedThrust := Vec3.smul a3.lander.thrust ⟨0, 0, -1⟩ } } else a3
  let a5 := if a4.keymap Key.S || a4.keymap Key.s then
      { a4 with lander := { a4.lander with
          appliedThrust := Vec3.smul a4.lander.thrust ⟨0, 0, 1⟩ } } else a4
  let a6 := if a5.keymap Key.D || a5.keymap Key.d then
      { a5 with lander := { a5.lander with
          appliedThrust := Vec3.smul a5.lander.thrust ⟨1, 0, 0⟩ } } else a5
  let a7 := if a6.keymap Key.A || a6.keymap Key.a then
      { a6 with lander := { a6.lander with
          appliedThrust := Vec3.smul a6.lander.thrust ⟨-1, 0, 0⟩ } } else a6
  -- OF_KEY_LEFT, OF_KEY_RIGHT
  let a8 := if a7.keymap h.keyLeft then
      { a7 with lander := { a7.lander with turnAcceleration := a7.lander.thrust * -3 } } else a7
  let a9 := if a8.keymap h.keyRight then
      { a8 with lander := { a8.lander with turnAcceleration := a8.lander.thrust * 3 } } else a8
  -- OF_KEY_DOWN, OF_KEY_UP
  let a10 := if a9.keymap h.keyDown then
      { a9 with lander := { a9.lander with
          appliedThrust := Vec3.smul a9.lander.thrust ⟨0, -1, 0⟩ } } else a9
  if a10.keymap h.keyUp then
    { a10 with lander := { a10.lander with
        appliedThrust := Vec3.smul a10.lander.thrust ⟨0, 1, 0⟩ } }
  else a10

/-- The method `ofApp::keyReleased`, branch by branch in source order (the
control-key flag, a display option, is left out). -/
def keyReleased (h : Host) (key : Int) (a : App) : App :=
  -- keymap[key] = false;
  let a0 := { a with keymap := Function.update a.keymap key false }
  -- if (!keymap[' ']) lander->appliedThrust = glm::vec3(0, 0, 0);
  let a1 := if !a0.keymap Key.space then
      { a0 with lander := { a0.lander with appliedThrust := ⟨0, 0, 0⟩ } } else a0
  -- if (!keymap['W'] | !keymap['w']) ... and the same for S, D, A
  let a2 := if !a1.keymap Key.W || !a1.keymap Key.w then
      { a1 with lander := { a1.lander with appliedThrust := ⟨0, 0, 0⟩ } } else a1
  let a3 := if !a2.keymap Key.S || !a2.keymap Key.s then
      { a2 with lander := { a2.lander with appliedThrust := ⟨0, 0, 0⟩ } } else a2
  let a4 := if !a3.keymap Key.D || !a3.keymap Key.d then
      { a3 with lander := { a3.lander with appliedThrust := ⟨0, 0, 0⟩ } } else a3
  let a5 := if !a4.keymap Key.A || !a4.keymap Key.a then
      { a4 with lander := { a4.lander with appliedThrust := ⟨0, 0, 0⟩ } } else a4
  -- if (!keymap[OF_KEY_LEFT]) ..., if (!keymap[OF_KEY_RIGHT]) ...
  let a6 := if !a5.keymap h.keyLeft then
      { a5 with lander := { a5.lander with turnAcceleration := 0 } } else a5
  let a7 := if !a6.keymap h.keyRight then
      { a6 with lander := { a6.lander with turnAcceleration := 0 } } else a6
  -- if (!keymap[OF_KEY_UP]) ..., if (!keymap[OF_KEY_DOWN]) ...
  let a8 := if !a7.keymap h.keyUp then
      { a7 with lander := { a7.lander with acceleration := ⟨0, 0, 0⟩ } } else a7
  if !a8.keymap h.keyDown then
    { a8 with lander := { a8.lander with acceleration := ⟨0, 0, 0⟩ } }
  else a8

/-- The constructor `Ship::Ship`.  `raw` holds the members that have no
initialiser (their value is whatever the memory held). -/
def Ship.construct (h : Host) (raw : Ship) : Ship :=
  let s0 := { raw with
      rotation := 0, shipLoaded := false, forces := ⟨0, 0, 0⟩, landed := false,
      appliedThrust := ⟨0, 0, 0⟩, gravity := ⟨0, 0, 0⟩, impulseForce := ⟨0, 0, 0⟩ }
  -- if (shipModel.loadModel(src)) shipLoaded = true;
  let s1 := { s0 with shipModel := h.landerModel, shipLoaded := h.landerLoads }
  -- shipBBox = Box(getSceneMin() + getPosition(), getSceneMax() + getPosition())
  s1.updateBoundingBox

/-- The method `ofApp::setup`, as far as the simulation fields go.  `raw` holds
the members that neither the class nor `setup` initialises (the altitude, the
two emitters, the raw ship memory); the key map and the hit list start empty. -/
def setup (h : Host) (raw : App) : App :=
  -- lander = new Ship("geo/lander.obj"); followed by the field assignments
  let l0 := Ship.construct h raw.lander
  let l1 := { l0 with thrust := 25, gravity := ⟨0, -8, 0⟩, damping := 0.99,
                      acceleration := ⟨0, 0, 0⟩, turnVelocity := 0, velocity := ⟨0, 0, 0⟩,
                      rotation := 0 }
  let l2 := l1.setPosition ⟨-50, 30, -50⟩
  let l3 := { l2 with fuel := 200, shipSelected := false }
  { raw with
      lander := l3
      colBoxList := []
      pointSelected := false
      keymap := fun _ => false
      -- top.setPosition(lander->getPosition());
      topPos := l3.getPosition
      validLandingArea := ⟨⟨-24.8, -1.6, -18.6⟩, ⟨21.7, 16.1, 27.5⟩⟩
      standBy := true
      gameOver := false
      inBounds := false
      showNearest := false
      exploded := false
      boomPlayed := 0 }

/-- The game-over text that `ofApp::draw` shows, if any. -/
def gameOverText (a : App) : Option String :=
  if a.gameOver then
    if a.exploded then some "You lose: landed too hard"
    else if a.inBounds then some "You landed!"
    else if !a.inBounds then some "You lose: did not land in correct area"
    else none
  else none

/-- What the program reacts to: a simulation tick (with the terrain answers of
that tick), a key press, a key release. -/
inductive Event where
  | tick (w : World)
  | press (key : Int)
  | release (key : Int)

/-- The handler that an event invokes. -/
def step (h : Host) (e : Event) (a : App) : App :=
  match e with
  | Event.tick w => update w a
  | Event.press key => keyPressed h key a
  | Event.release key => keyReleased h key a

/-- A sequence of events handled in order, oldest first. -/
def runEvents (h : Host) : List Event → App → App
  | [], a => a
  | e :: es, a => runEvents h es (step h e a)

/-! ## The mesh bounding box -/

/-- The running `max` and `min` of the loop in `ofApp::meshBounds`. -/
structure Bounds where
  max : Vec3
  min : Vec3

/-- One pass of the loop body of `ofApp::meshBounds` for the vertex `v`. -/
def boundsStep (b : Bounds) (v : Vec3) : Bounds :=
  -- if (v.x > max.x) max.x = v.x; else if (v.x < min.x) min.x = v.x;
  let b1 : Bounds := if v.x > b.max.x then { b with max := { b.max with x := v.x } }
    else if v.x < b.min.x then { b with min := { b.min with x := v.x } } else b
  let b2 : Bounds := if v.y > b1.max.y then { b1 with max := { b1.max with y := v.y } }
    else if v.y < b1.min.y then { b1 with min := { b1.min with y := v.y } } else b1
  if v.z > b2.max.z then { b2 with max := { b2.max with z := v.z } }
  else if v.z < b2.min.z then { b2 with min := { b2.min with z := v.z } } else b2

/-- The method `ofApp::meshBounds` on the vertex list of a mesh; reading vertex 0
of a mesh without vertices has no defined result. -/
def meshBounds (mesh : List Vec3) : Option Box :=
  match mesh with
  | [] => none
  | v :: rest =>
    let b := rest.foldl boundsStep { max := v, min := v }
    some ⟨⟨b.min.x, b.min.y, b.min.z⟩, ⟨b.max.x, b.max.y, b.max.z⟩⟩

/-! ## Intermediate states of a tick -/

/-- The state `checkCollisions` reaches right after it has stored the impulse: the
hit list holds the query answer and `impulseForce` is `(0, -111 * v.y, 0)`. -/
def withImpulse (w : World) (a : App) : App :=
  { a with
      colBoxList := w.boxQuery a.lander.shipBBox
      lander := { a.lander with impulseForce := ⟨0, -111 * a.lander.velocity.y, 0⟩ } }

/-- The state in which `update` calls `checkCollisions`: bounding box and
`inBounds` refreshed. -/
def beforeCollisions (a : App) : App :=
  { a with
      lander := a.lander.updateBoundingBox
      inBounds := a.lander.updateBoundingBox.shipBBox.overlap a.validLandingArea }

/-- The part of `update` that follows `checkCollisions`: integration, camera,
altitude sensor, emitters and the game-over book-keeping. -/
def afterCollisions (w : World) (a3 : App) : App :=
  let a4 := { a3 with lander := a3.lander.integrate }
  let a5 := { a4 with lander := a4.lander.integrateTurn }
  let a6 := if a5.lander.getShipLoaded then { a5 with topPos := a5.lander.getPosition } else a5
  let r := raySelectLine w a6 Vec3.zero
  let a7 := { r.1 with altitude := r.1.lander.getPosition.y - r.2.1.y }
  let ep := (⟨a7.lander.getPosition.x, a7.lander.getPosition.y + 2.5, a7.lander.getPosition.z⟩ : Vec3)
  let a8 := { a7 with emitter :=
    (((a7.emitter.setPosition ep).setOneShot true).setVelocity ⟨0, -25, 0⟩).update }
  let a9 := { a8 with explosion :=
    (((a8.explosion.setPosition ep).setOneShot true).setVelocity ⟨0, -25, 0⟩).update }
  let a10 := if a9.lander.landed then { a9 with gameOver := true } else a9
  if a10.exploded then { a10 with lander := { a10.lander with thrust := 0 } } else a10

/-- The state after the first two statements of `keyPressed`: the key is marked
as held and the E branch has run. -/
def pressMark (key : Int) (a : App) : App :=
  let a0 := { a with keymap := Function.update a.keymap key true }
  if a0.keymap Key.E || a0.keymap Key.e then
    { a0 with showNearest := !a0.showNearest } else a0

/-- Whether the reset branch of a key press fires: R or r is held once the key is
marked, and the game is over. -/
def resetFires (key : Int) (a : App) : Bool :=
  (Function.update a.keymap key true Key.R || Function.update a.keymap key true Key.r)
    && a.gameOver

/-- The R branch of `keyPressed`. -/
def pressReset (h : Host) (a1 : App) : App :=
  if a1.keymap Key.R || a1.keymap Key.r then
    if a1.gameOver then
      let b := { a1 with exploded := false, gameOver := false, inBounds := false,
                         showNearest := false }
      let l1 := { b.lander with shipModel := h.landerModel }
      let l2 := { l1 with thrust := 25, acceleration := ⟨0, 0, 0⟩, turnVelocity := 0,
                          velocity := ⟨0, 0, 0⟩, rotation := 0 }
      let l3 := l2.setPosition ⟨-50, 30, -50⟩
      { b with lander := { l3 with fuel := 200, landed := false, shipSelected := false } }
    else a1
  else a1

/-- The space branch of `keyPressed`. -/
def pressSpace (a2 : App) : App :=
  if a2.keymap Key.space then
    let b := if a2.lander.fuel > 0 ∧ a2.exploded = false then
        { a2 with
            emitter := if !a2.emitter.started then a2.emitter.start else a2.emitter
            lander := { a2.lander with
                          appliedThrust := Vec3.smul a2.lander.thrust ⟨0, 1, 0⟩
                          fuel := a2.lander.fuel - 1 } }
      else a2
    if b.standBy then { b with standBy := !b.standBy } else b
  else a2

/-- The W, S, D, A and arrow branches of `keyPressed`. -/
def pressMove (h : Host) (a3 : App) : App :=
  let a4 := if a3.keymap Key.W || a3.keymap Key.w then
      { a3 with lander := { a3.lander with
          appliedThrust := Vec3.smul a3.lander.thrust ⟨0, 0, -1⟩ } } else a3
  let a5 := if a4.keymap Key.S || a4.keymap Key.s then
      { a4 with lander := { a4.lander with
          appliedThrust := Vec3.smul a4.lander.thrust ⟨0, 0, 1⟩ } } else a4
  let a6 := if a5.keymap Key.D || a5.keymap Key.d then
      { a5 with lander := { a5.lander with
          appliedThrust := Vec3.smul a5.lander.thrust ⟨1, 0, 0⟩ } } else a5
  let a7 := if a6.keymap Key.A || a6.keymap Key.a then
      { a6 with lander := { a6.lander with
          appliedThrust := Vec3.smul a6.lander.thrust ⟨-1, 0, 0⟩ } } else a6
  let a8 := if a7.keymap h.keyLeft then
      { a7 with lander := { a7.lander with turnAcceleration := a7.lander.thrust * -3 } } else a7
  let a9 := if a8.keymap h.keyRight then
      { a8 with lander := { a8.lander with turnAcceleration := a8.lander.thrust * 3 } } else a8
  let a10 := if a9.keymap h.keyDown then
      { a9 with lander := { a9.lander with
          appliedThrust := Vec3.smul a9.lander.thrust ⟨0, -1, 0⟩ } } else a9
  if a10.keymap h.keyUp then
    { a10 with lander := { a10.lander with
        appliedThrust := Vec3.smul a10.lander.thrust ⟨0, 1, 0⟩ } }
  else a10

/-- The shape shared by the movement branches of `keyPressed` and by every
branch of `keyReleased`: when the test `k` on the key map holds, the lander is
changed by `f`. -/
def landerStep (k : (Int → Bool) → Bool) (f : Ship → Ship) (a : App) : App :=
  if k a.keymap then { a with lander := f a.lander } else a

/-- The ship `t` differs from `s` at most in `appliedThrust`, `turnAcceleration`
and `acceleration`, the three fields that steering writes. -/
def Ship.steeredFrom (s t : Ship) : Prop :=
  t.thrust = s.thrust ∧ t.landed = s.landed ∧ t.fuel = s.fuel ∧ t.position = s.position ∧
  t.velocity = s.velocity ∧ t.rotation = s.rotation ∧ t.turnVelocity = s.turnVelocity ∧
  t.shipLoaded = s.shipLoaded

/-- The state `b` differs from `a` at most in the steering fields of the lander. -/
def steeredFrom (a b : App) : Prop :=
  b.keymap = a.keymap ∧ b.gameOver = a.gameOver ∧ b.exploded = a.exploded ∧
  b.inBounds = a.inBounds ∧ b.standBy = a.standBy ∧ a.lander.steeredFrom b.lander

/-- A lander model with extents `(-1,0,-1)`..`(1,2,1)`. -/
def sampleModel : Model :=
  { sceneMin := ⟨-1, 0, -1⟩, sceneMax := ⟨1, 2, 1⟩, pos := ⟨-50, 30, -50⟩, rotAngle := 0,
    cleared := false }

/-- A loaded lander at the spawn point with the physics constants of `setup`
and the given velocity. -/
def sampleShip (v : Vec3) : Ship :=
  { shipModel := sampleModel
    shipBBox := ⟨⟨-51, 30, -51⟩, ⟨-49, 32, -49⟩⟩
    position := ⟨-50, 30, -50⟩
    velocity := v
    acceleration := ⟨0, 0, 0⟩
    rotation := 0
    turnVelocity := 0
    turnAcceleration := 0
    shipSelected := false
    shipLoaded := true
    thrust := 25
    appliedThrust := ⟨0, 0, 0⟩
    gravity := ⟨0, -8, 0⟩
    impulseForce := ⟨0, 0, 0⟩
    forces := ⟨0, 0, 0⟩
    damping := 0.99
    landed := false
    fuel := 200 }

/-- A fresh emitter, not started. -/
def sampleEmitter : ParticleEmitter :=
  { started := false, oneShot := false, position := ⟨0, 0, 0⟩, velocity := ⟨0, 0, 0⟩ }

/-- A game in flight (neither stand-by nor over) whose lander moves with velocity `v`. -/
def sampleApp (v : Vec3) : App :=
  { lander := sampleShip v
    colBoxList := []
    inBounds := false
    showNearest := false
    pointSelected := false
    emitter := sampleEmitter
    explosion := sampleEmitter
    keymap := fun _ => false
    validLandingArea := ⟨⟨-24.8, -1.6, -18.6⟩, ⟨21.7, 16.1, 27.5⟩⟩
    altitude := 0
    gameOver := false
    standBy := false
    exploded := false
    topPos := ⟨-50, 30, -50⟩
    boomPlayed := 0 }

/-- A terrain whose box query answers every box with one leaf, the unit cube. -/
def touchingWorld : World :=
  { boxQuery := fun _ => [⟨⟨0, 0, 0⟩, ⟨1, 1, 1⟩⟩], rayQuery := fun _ => none }

/-- A terrain that no box and no ray ever meets. -/
def emptyWorld : World :=
  { boxQuery := fun _ => [], rayQuery := fun _ => none }

/-- A host whose special keys have the codes 57356 to 57359 and whose loader
yields the sample model. -/
def sampleHost : Host :=
  { keyLeft := 57356, keyUp := 57357, keyRight := 57358, keyDown := 57359,
    landerModel := sampleModel, landerLoads := true }

/-- The events of a short game on the sample host: space is tapped, then two
ticks pass on terrain that the lander touches. -/
def shortGame : List Event :=
  [Event.press Key.space, Event.release Key.space, Event.tick touchingWorld,
    Event.tick touchingWorld]

/-- A game in flight in which W is the only key held and its thrust
`(0, 0, -25)` is applied. -/
def thrustingApp : App :=
  { sampleApp ⟨0, 0, 0⟩ with
      lander := { sampleShip ⟨0, 0, 0⟩ with appliedThrust := ⟨0, 0, -25⟩ }
      keymap := fun k => decide (k = Key.W) }

/-- A game in flight whose lander has burnt all its fuel. -/
def emptyTankApp : App :=
  { sampleApp ⟨0, 0, 0⟩ with lander := { sampleShip ⟨0, 0, 0⟩ with fuel := 0 } }

/-- A finished game: the lander has landed and `gameOver` is set; the key map
is `km`. -/
def landedApp (km : Int → Bool) : App :=
  { sampleApp ⟨0, 1, 0⟩ with
      lander := { sampleShip ⟨0, 1, 0⟩ with thrust := 0, landed := true, fuel := 150,
                                            position := ⟨3, 1, 4⟩ }
      keymap := km
      gameOver := true }

/-! ## The integrator -/

/-- C1. For a ship whose model is loaded, one call of `Ship::integrate` moves
the position by the old velocity times `dt = 1/60`, and replaces the velocity by
`(velocity + (acceleration + gravity + appliedThrust + impulseForce) * dt) * damping`,
component by component. -/
theorem integrate_semi_implicit (s : Ship) (hl : s.shipLoaded = true) :
    (s.integrate).position = s.position.add (s.velocity.scale dt) ∧
    (s.integrate).velocity =
      ((s.velocity.add
        ((s.acceleration.add
          (((s.gravity.add s.appliedThrust).add s.impulseForce))).scale dt)).scale s.damping) := by
  constructor
  · simp [Ship.integrate, Ship.setPosition, Ship.getShipLoaded, Ship.getPosition, Ship.addForces,
      hl, Vec3.add, Vec3.scale, Vec3.div, dt, div_eq_mul_inv]
  · simp [Ship.integrate, Ship.setPosition, Ship.getShipLoaded, Ship.getPosition, Ship.addForces,
      hl, Vec3.add, Vec3.scale, Vec3.div, dt]

/-- Witness for C1: the sample lander falling at 3 units per second. -/
theorem integrate_semi_implicit_witness :
    (sampleShip ⟨0, -3, 0⟩).shipLoaded = true ∧
    ((sampleShip ⟨0, -3, 0⟩).integrate).position =
      (sampleShip ⟨0, -3, 0⟩).position.add ((sampleShip ⟨0, -3, 0⟩).velocity.scale dt) ∧
    ((sampleShip ⟨0, -3, 0⟩).integrate).velocity =
      (((sampleShip ⟨0, -3, 0⟩).velocity.add
        (((sampleShip ⟨0, -3, 0⟩).acceleration.add
          ((((sampleShip ⟨0, -3, 0⟩).gravity.add (sampleShip ⟨0, -3, 0⟩).appliedThrust).add
            (sampleShip ⟨0, -3, 0⟩).impulseForce))).scale dt)).scale
              (sampleShip ⟨0, -3, 0⟩).damping) :=
  ⟨rfl, integrate_semi_implicit (sampleShip ⟨0, -3, 0⟩) rfl⟩

/-! ## The collision resolver -/

/-- In the colliding branch `checkCollisions` stores the impulse and then
classifies it by the two thresholds. -/
theorem checkCollisions_hit (w : World) (a : App)
    (hhit : w.boxQuery a.lander.shipBBox ≠ []) (hv : a.lander.velocity.y < 0) :
    checkCollisions w a =
      if -111 * a.lander.velocity.y < 500 ∧ -111 * a.lander.velocity.y > 0 then
        if a.gameOver = false then
          { withImpulse w a with
              lander := { (withImpulse w a).lander with thrust := 0, landed := true } }
        else withImpulse w a
      else if -111 * a.lander.velocity.y > 800 then
        if !a.explosion.started then
          { withImpulse w a with
              lander := { (withImpulse w a).lander with
                            shipModel := (withImpulse w a).lander.shipModel.clear }
              boomPlayed := a.boomPlayed + 1
              explosion := a.explosion.start
              exploded := true }
        else withImpulse w a
      else withImpulse w a := by
  have hne : (w.boxQuery a.lander.shipBBox).isEmpty = false := by
    cases h : w.boxQuery a.lander.shipBBox with
    | nil => exact absurd h hhit
    | cons b bs => rfl
  have himp : Vec3.smul (60 * 1.85) (Vec3.smul (-(a.lander.velocity.dot ⟨0, 1, 0⟩)) ⟨0, 1, 0⟩)
      = ⟨0, -111 * a.lander.velocity.y, 0⟩ := by
    simp only [Vec3.smul, Vec3.dot]
    congr 1 <;> norm_num
  simp only [checkCollisions, Octree.intersect, hne, Bool.not_false, Bool.true_and, hv,
    decide_True, if_true, himp, List.nil_append, withImpulse]

/-- When the box query finds nothing, or the lander is not descending,
`checkCollisions` only refreshes the hit list. -/
theorem checkCollisions_miss (w : World) (a : App)
    (h : w.boxQuery a.lander.shipBBox = [] ∨ 0 ≤ a.lander.velocity.y) :
    checkCollisions w a = { a with colBoxList := w.boxQuery a.lander.shipBBox } := by
  rcases h with h | h
  · simp [checkCollisions, Octree.intersect, h]
  · simp [checkCollisions, Octree.intersect, not_lt.mpr h]

/-- The impulse stored in the colliding branch, whatever the classification. -/
theorem impulse_of_hit (w : World) (a : App)
    (hhit : w.boxQuery a.lander.shipBBox ≠ []) (hv : a.lander.velocity.y < 0) :
    (checkCollisions w a).lander.impulseForce = ⟨0, -111 * a.lander.velocity.y, 0⟩ := by
  rw [checkCollisions_hit w a hhit hv]
  split_ifs <;> rfl

/-- C2. With a non-empty hit list and a descending lander (`v.y < 0`),
`checkCollisions` sets `impulseForce = k * (-(v . up)) * up` with `up = (0,1,0)` and
`k = 60 * 1.85 = 111`, that is `impulseForce = (0, -111 * v.y, 0)`. -/
theorem checkCollisions_impulse (w : World) (a : App)
    (hhit : w.boxQuery a.lander.shipBBox ≠ []) (hv : a.lander.velocity.y < 0) :
    (checkCollisions w a).lander.impulseForce =
        Vec3.smul (60 * 1.85) (Vec3.smul (-(a.lander.velocity.dot ⟨0, 1, 0⟩)) ⟨0, 1, 0⟩) ∧
    (60 * 1.85 : ℚ) = 111 ∧
    (checkCollisions w a).lander.impulseForce = ⟨0, -111 * a.lander.velocity.y, 0⟩ := by
  have key := impulse_of_hit w a hhit hv
  refine ⟨?_, by norm_num, key⟩
  rw [key]
  simp only [Vec3.smul, Vec3.dot]
  congr 1 <;> norm_num

/-- Witness for C2: the sample lander falling at 3 units per second onto terrain. -/
theorem checkCollisions_impulse_witness :
    (checkCollisions touchingWorld (sampleApp ⟨0, -3, 0⟩)).lander.impulseForce = ⟨0, 333, 0⟩ := by
  have h := (checkCollisions_impulse touchingWorld (sampleApp ⟨0, -3, 0⟩)
    (by simp [touchingWorld]) (by norm_num [sampleApp, sampleShip])).2.2
  rw [h]
  norm_num [sampleApp, sampleShip]

/-- C3. In a flying tick (`gameOver` is false) with a non-empty hit list and a
descending lander, if the computed impulse satisfies `0 < impulseForce.y < 500`
then `checkCollisions` sets `landed = true` and the thrust to 0. -/
theorem checkCollisions_soft_landing (w : World) (a : App) (hfly : a.gameOver = false)
    (hhit : w.boxQuery a.lander.shipBBox ≠ []) (hv : a.lander.velocity.y < 0)
    (hpos : 0 < (checkCollisions w a).lander.impulseForce.y)
    (hlt : (checkCollisions w a).lander.impulseForce.y < 500) :
    (checkCollisions w a).lander.landed = true ∧
    (checkCollisions w a).lander.thrust = 0 := by
  rw [impulse_of_hit w a hhit hv] at hpos hlt
  have hc : -111 * a.lander.velocity.y < 500 ∧ -111 * a.lander.velocity.y > 0 := ⟨hlt, hpos⟩
  rw [checkCollisions_hit w a hhit hv, if_pos hc, if_pos hfly]
  exact ⟨rfl, rfl⟩

/-- The sample lander falling at 3 units per second onto terrain receives the
impulse `(0, 333, 0)`. -/
theorem sample_impulse_333 :
    (checkCollisions touchingWorld (sampleApp ⟨0, -3, 0⟩)).lander.impulseForce = ⟨0, 333, 0⟩ := by
  rw [impulse_of_hit touchingWorld (sampleApp ⟨0, -3, 0⟩) (by simp [touchingWorld])
    (by norm_num [sampleApp, sampleShip])]
  norm_num [sampleApp, sampleShip]

/-- Witness for C3: velocity `(0,-3,0)` gives `impulseForce.y = 333` and a landing. -/
theorem checkCollisions_soft_landing_witness :
    (checkCollisions touchingWorld (sampleApp ⟨0, -3, 0⟩)).lander.impulseForce.y = 333 ∧
    (checkCollisions touchingWorld (sampleApp ⟨0, -3, 0⟩)).lander.landed = true ∧
    (checkCollisions touchingWorld (sampleApp ⟨0, -3, 0⟩)).lander.thrust = 0 :=
  ⟨by rw [sample_impulse_333],
   checkCollisions_soft_landing touchingWorld (sampleApp ⟨0, -3, 0⟩) rfl
    (by simp [touchingWorld]) (by norm_num [sampleApp, sampleShip])
    (by rw [sample_impulse_333]; norm_num) (by rw [sample_impulse_333]; norm_num)⟩

/-! ## One tick of `update` -/

/-- A call of `update` outside a running game (game over or stand-by) is the identity. -/
theorem update_idle (w : World) (a : App) (h : a.gameOver = true ∨ a.standBy = true) :
    update w a = a := by
  rcases h with h | h <;> simp [update, h]

/-- A simulated tick is `checkCollisions` on the refreshed state followed by the
rest of `update`. -/
theorem update_running (w : World) (a : App) (hg : a.gameOver = false) (hs : a.standBy = false) :
    update w a = afterCollisions w (checkCollisions w (beforeCollisions a)) := by
  have hrun : (!a.gameOver && !a.standBy) = true := by simp [hg, hs]
  unfold update
  rw [if_pos hrun]
  rfl

/-- The sensor query only records whether it hit. -/
theorem raySelectLine_fst (w : World) (a : App) (p : Vec3) :
    (raySelectLine w a p).1 = { a with pointSelected := (w.rayQuery a.topPos).isSome } := by
  unfold raySelectLine
  cases w.rayQuery a.topPos <;> rfl

/-- The ship after the integration steps of a tick, apart from the final thrust cut. -/
theorem afterCollisions_lander (w : World) (c : App) :
    (afterCollisions w c).lander =
      if c.exploded then { c.lander.integrate.integrateTurn with thrust := 0 }
      else c.lander.integrate.integrateTurn := by
  simp only [afterCollisions, raySelectLine_fst]
  split_ifs <;> rfl

/-- The integration steps keep the lifecycle flag, the thrust setting and the
emptied mark of the model. -/
theorem integrate_keeps (s : Ship) :
    s.integrate.integrateTurn.landed = s.landed ∧
    s.integrate.integrateTurn.shipModel.cleared = s.shipModel.cleared ∧
    s.integrate.integrateTurn.thrust = s.thrust ∧
    s.integrate.integrateTurn.shipLoaded = s.shipLoaded := by
  cases hl : s.shipLoaded <;>
    simp [Ship.integrate, Ship.integrateTurn, Ship.setPosition, Ship.setRotation,
      Ship.getShipLoaded, Ship.addForces, hl]

/-- What the tail of a tick leaves alone, and how it sets `gameOver`. -/
theorem afterCollisions_flags (w : World) (c : App) :
    (afterCollisions w c).exploded = c.exploded ∧
    (afterCollisions w c).explosion.started = c.explosion.started ∧
    (afterCollisions w c).boomPlayed = c.boomPlayed ∧
    (afterCollisions w c).colBoxList = c.colBoxList ∧
    (afterCollisions w c).inBounds = c.inBounds ∧
    (afterCollisions w c).standBy = c.standBy ∧
    (afterCollisions w c).gameOver = (c.lander.landed || c.gameOver) := by
  have hk := (integrate_keeps c.lander).1
  simp only [afterCollisions, raySelectLine_fst]
  split_ifs <;>
    simp_all [ParticleEmitter.update, ParticleEmitter.setVelocity, ParticleEmitter.setOneShot,
      ParticleEmitter.setPosition]

/-- C5. In a flying tick with a non-empty hit list and a descending lander, an
impulse with `500 <= impulseForce.y <= 800` (both bounds included) is applied,
and `checkCollisions` changes none of `landed`, `exploded`, `thrust` (nor
`gameOver`, `standBy`, the explosion emitter or the boom count): the lander
stays in flight. -/
theorem checkCollisions_mid_band (w : World) (a : App)
    (hhit : w.boxQuery a.lander.shipBBox ≠ []) (hv : a.lander.velocity.y < 0)
    (hlo : 500 ≤ (checkCollisions w a).lander.impulseForce.y)
    (hhi : (checkCollisions w a).lander.impulseForce.y ≤ 800) :
    (checkCollisions w a).lander.impulseForce = ⟨0, -111 * a.lander.velocity.y, 0⟩ ∧
    (checkCollisions w a).lander.landed = a.lander.landed ∧
    (checkCollisions w a).exploded = a.exploded ∧
    (checkCollisions w a).lander.thrust = a.lander.thrust ∧
    (checkCollisions w a).gameOver = a.gameOver ∧
    (checkCollisions w a).standBy = a.standBy ∧
    (checkCollisions w a).explosion = a.explosion ∧
    (checkCollisions w a).boomPlayed = a.boomPlayed := by
  rw [impulse_of_hit w a hhit hv] at hlo hhi
  have h1 : ¬ (-111 * a.lander.velocity.y < 500 ∧ -111 * a.lander.velocity.y > 0) := by
    intro h; exact absurd h.1 (not_lt.mpr hlo)
  have h2 : ¬ (-111 * a.lander.velocity.y > 800) := not_lt.mpr hhi
  rw [checkCollisions_hit w a hhit hv, if_neg h1, if_neg h2]
  exact ⟨rfl, rfl, rfl, rfl, rfl, rfl, rfl, rfl⟩

/-- The sample lander falling at 5 units per second onto terrain receives the
impulse `(0, 555, 0)`. -/
theorem sample_impulse_555 :
    (checkCollisions touchingWorld (sampleApp ⟨0, -5, 0⟩)).lander.impulseForce = ⟨0, 555, 0⟩ := by
  rw [impulse_of_hit touchingWorld (sampleApp ⟨0, -5, 0⟩) (by simp [touchingWorld])
    (by norm_num [sampleApp, sampleShip])]
  norm_num [sampleApp, sampleShip]

/-- Witness for C5: velocity `(0,-5,0)` gives `impulseForce.y = 555` and no transition. -/
theorem checkCollisions_mid_band_witness :
    (checkCollisions touchingWorld (sampleApp ⟨0, -5, 0⟩)).lander.impulseForce.y = 555 ∧
    (checkCollisions touchingWorld (sampleApp ⟨0, -5, 0⟩)).lander.landed = false ∧
    (checkCollisions touchingWorld (sampleApp ⟨0, -5, 0⟩)).exploded = false ∧
    (checkCollisions touchingWorld (sampleApp ⟨0, -5, 0⟩)).lander.thrust = 25 :=
  have h := checkCollisions_mid_band touchingWorld (sampleApp ⟨0, -5, 0⟩)
    (by simp [touchingWorld]) (by norm_num [sampleApp, sampleShip])
    (by rw [sample_impulse_555]; norm_num) (by rw [sample_impulse_555]; norm_num)
  ⟨by rw [sample_impulse_555], h.2.1, h.2.2.1, h.2.2.2.1⟩

/-- C6. If the box query returns no hits, or the vertical velocity of the lander
is not negative, `checkCollisions` applies no impulse: `impulseForce`, `thrust`,
`landed` and `exploded` are left as they were. -/
theorem checkCollisions_no_contact (w : World) (a : App)
    (h : w.boxQuery a.lander.shipBBox = [] ∨ a.lander.velocity.y ≥ 0) :
    (checkCollisions w a).lander.impulseForce = a.lander.impulseForce ∧
    (checkCollisions w a).lander.thrust = a.lander.thrust ∧
    (checkCollisions w a).lander.landed = a.lander.landed ∧
    (checkCollisions w a).exploded = a.exploded ∧
    (checkCollisions w a).lander = a.lander ∧
    (checkCollisions w a).gameOver = a.gameOver := by
  rw [checkCollisions_miss w a h]
  exact ⟨rfl, rfl, rfl, rfl, rfl, rfl⟩

/-- Witness for C6: no terrain under a falling lander, and terrain under a rising one. -/
theorem checkCollisions_no_contact_witness :
    ((checkCollisions emptyWorld (sampleApp ⟨0, -3, 0⟩)).lander.impulseForce = ⟨0, 0, 0⟩ ∧
      (checkCollisions emptyWorld (sampleApp ⟨0, -3, 0⟩)).lander.landed = false) ∧
    ((checkCollisions touchingWorld (sampleApp ⟨0, 2, 0⟩)).lander.impulseForce = ⟨0, 0, 0⟩ ∧
      (checkCollisions touchingWorld (sampleApp ⟨0, 2, 0⟩)).lander.thrust = 25) :=
  have h1 := checkCollisions_no_contact emptyWorld (sampleApp ⟨0, -3, 0⟩) (Or.inl rfl)
  have h2 := checkCollisions_no_contact touchingWorld (sampleApp ⟨0, 2, 0⟩)
    (Or.inr (by norm_num [sampleApp, sampleShip]))
  ⟨⟨h1.1, h1.2.2.1⟩, ⟨h2.1, h2.2.1⟩⟩

/-! ## The impulse lasts one tick -/

/-- `Ship::integrate` always ends with `impulseForce` and `forces` at zero, and
`integrateTurn` does not touch them. -/
theorem integrate_clears (s : Ship) :
    s.integrate.impulseForce = Vec3.zero ∧ s.integrate.forces = Vec3.zero ∧
    s.integrate.integrateTurn.impulseForce = Vec3.zero ∧
    s.integrate.integrateTurn.forces = Vec3.zero := by
  cases hl : s.shipLoaded <;>
    simp [Ship.integrate, Ship.integrateTurn, Ship.setPosition, Ship.setRotation,
      Ship.getShipLoaded, Ship.addForces, hl, Vec3.zero]

/-- The velocity that `Ship::integrate` computes, loaded or not. -/
theorem integrate_velocity (s : Ship) :
    s.integrate.integrateTurn.velocity =
      (s.velocity.add ((s.acceleration.add
        ((s.gravity.add s.appliedThrust).add s.impulseForce)).scale (1 / 60))).scale s.damping ∧
    s.integrate.integrateTurn.acceleration = s.acceleration ∧
    s.integrate.integrateTurn.gravity = s.gravity ∧
    s.integrate.integrateTurn.appliedThrust = s.appliedThrust ∧
    s.integrate.integrateTurn.damping = s.damping := by
  cases hl : s.shipLoaded <;>
    simp [Ship.integrate, Ship.integrateTurn, Ship.setPosition, Ship.setRotation,
      Ship.getShipLoaded, Ship.addForces, hl]

/-- The bounding box refresh changes nothing but the box. -/
theorem updateBoundingBox_fields (s : Ship) :
    s.updateBoundingBox.velocity = s.velocity ∧
    s.updateBoundingBox.acceleration = s.acceleration ∧
    s.updateBoundingBox.gravity = s.gravity ∧
    s.updateBoundingBox.appliedThrust = s.appliedThrust ∧
    s.updateBoundingBox.damping = s.damping ∧
    s.updateBoundingBox.impulseForce = s.impulseForce ∧
    s.updateBoundingBox.position = s.position := by
  cases hl : s.shipLoaded <;> simp [Ship.updateBoundingBox, Ship.getShipLoaded, hl]

/-- C7. The impulse is a single-tick event.  After every call of
`Ship::integrate`, `impulseForce` and `forces` are zero; hence at the end of every
simulated tick `impulseForce` is zero; an impulse set by `checkCollisions` enters
the velocity update of that same tick; and in a following simulated tick without
contact the velocity update contains no impulse term. -/
theorem impulse_single_tick (s : Ship) (w w2 : World) (a : App) :
    (s.integrate.impulseForce = Vec3.zero ∧ s.integrate.forces = Vec3.zero) ∧
    (a.gameOver = false → a.standBy = false →
      (update w a).lander.impulseForce = Vec3.zero ∧ (update w a).lander.forces = Vec3.zero) ∧
    (a.gameOver = false → a.standBy = false →
      w.boxQuery (beforeCollisions a).lander.shipBBox ≠ [] → a.lander.velocity.y < 0 →
      (update w a).lander.velocity =
        (a.lander.velocity.add ((a.lander.acceleration.add
          ((a.lander.gravity.add a.lander.appliedThrust).add
            ⟨0, -111 * a.lander.velocity.y, 0⟩)).scale dt)).scale a.lander.damping) ∧
    (a.gameOver = false → a.standBy = false → (update w a).gameOver = false →
      (w2.boxQuery (beforeCollisions (update w a)).lander.shipBBox = [] ∨
        (update w a).lander.velocity.y ≥ 0) →
      (update w2 (update w a)).lander.velocity =
        ((update w a).lander.velocity.add (((update w a).lander.acceleration.add
          ((update w a).lander.gravity.add (update w a).lander.appliedThrust)).scale dt)).scale
            (update w a).lander.damping) := by
  have hvel : ∀ (w : World) (b : App), b.gameOver = false → b.standBy = false →
      (update w b).lander.velocity =
        ((checkCollisions w (beforeCollisions b)).lander.velocity.add
          (((checkCollisions w (beforeCollisions b)).lander.acceleration.add
            (((checkCollisions w (beforeCollisions b)).lander.gravity.add
              (checkCollisions w (beforeCollisions b)).lander.appliedThrust).add
              (checkCollisions w (beforeCollisions b)).lander.impulseForce)).scale (1 / 60))).scale
          (checkCollisions w (beforeCollisions b)).lander.damping := by
    intro w b hg hs
    rw [update_running w b hg hs, afterCollisions_lander]
    split_ifs
    · exact (integrate_velocity _).1
    · exact (integrate_velocity _).1
  have himp : ∀ (w : World) (b : App), b.gameOver = false → b.standBy = false →
      (update w b).lander.impulseForce = Vec3.zero ∧ (update w b).lander.forces = Vec3.zero := by
    intro w b hg hs
    rw [update_running w b hg hs, afterCollisions_lander]
    split_ifs
    · exact ⟨(integrate_clears _).2.2.1, (integrate_clears _).2.2.2⟩
    · exact ⟨(integrate_clears _).2.2.1, (integrate_clears _).2.2.2⟩
  refine ⟨⟨(integrate_clears s).1, (integrate_clears s).2.1⟩, himp w a, ?_, ?_⟩
  · intro hg hs hhit hv
    have hb := updateBoundingBox_fields a.lander
    have hv2 : (beforeCollisions a).lander.velocity.y < 0 := by
      show a.lander.updateBoundingBox.velocity.y < 0
      rw [hb.1]; exact hv
    rw [hvel w a hg hs, checkCollisions_hit w (beforeCollisions a) hhit hv2]
    have e1 : (beforeCollisions a).lander.velocity = a.lander.velocity := hb.1
    split_ifs <;>
      simp only [withImpulse, e1] <;>
      simp only [beforeCollisions, hb, dt]
  · intro hg hs hg2 hmiss
    have hs2 : (update w a).standBy = false := by
      rw [update_running w a hg hs, (afterCollisions_flags w _).2.2.2.2.2.1]
      by_cases hm : w.boxQuery (beforeCollisions a).lander.shipBBox = [] ∨
          0 ≤ (beforeCollisions a).lander.velocity.y
      · rw [checkCollisions_miss w _ hm]; exact hs
      · have hhit : w.boxQuery (beforeCollisions a).lander.shipBBox ≠ [] :=
          fun h => hm (Or.inl h)
        have hv : (beforeCollisions a).lander.velocity.y < 0 :=
          not_le.mp (fun h => hm (Or.inr h))
        rw [checkCollisions_hit w _ hhit hv]
        split_ifs <;> exact hs
    have hb := updateBoundingBox_fields (update w a).lander
    have hmiss2 : w2.boxQuery (beforeCollisions (update w a)).lander.shipBBox = [] ∨
        0 ≤ (beforeCollisions (update w a)).lander.velocity.y := by
      rcases hmiss with h | h
      · exact Or.inl h
      · right
        show 0 ≤ (update w a).lander.updateBoundingBox.velocity.y
        rw [hb.1]; exact h
    have hz := (himp w a hg hs).1
    rw [hvel w2 (update w a) hg2 hs2, checkCollisions_miss w2 _ hmiss2]
    simp only [beforeCollisions, hb, hz, dt, Vec3.add, Vec3.zero, add_zero]

/-- One tick of the sample lander falling at 5 units per second onto terrain:
the game goes on and the lander rebounds. -/
theorem sample_tick_mid_band :
    (update touchingWorld (sampleApp ⟨0, -5, 0⟩)).gameOver = false ∧
    (update touchingWorld (sampleApp ⟨0, -5, 0⟩)).lander.velocity = ⟨0, 8151 / 2000, 0⟩ := by
  have hhit : touchingWorld.boxQuery
      (beforeCollisions (sampleApp ⟨0, -5, 0⟩)).lander.shipBBox ≠ [] := by
    simp [touchingWorld]
  have hv : (beforeCollisions (sampleApp ⟨0, -5, 0⟩)).lander.velocity.y < 0 := by
    norm_num [beforeCollisions, sampleApp, sampleShip, Ship.updateBoundingBox, Ship.getShipLoaded]
  rw [update_running _ _ rfl rfl]
  constructor
  · rw [(afterCollisions_flags _ _).2.2.2.2.2.2, checkCollisions_hit _ _ hhit hv]
    norm_num [beforeCollisions, sampleApp, sampleShip, Ship.updateBoundingBox,
      Ship.getShipLoaded, withImpulse]
  · rw [afterCollisions_lander, checkCollisions_hit _ _ hhit hv]
    norm_num [beforeCollisions, sampleApp, sampleShip, Ship.updateBoundingBox,
      Ship.getShipLoaded, withImpulse, Ship.integrate, Ship.integrateTurn, Ship.setPosition,
      Ship.setRotation, Ship.addForces, Vec3.add, Vec3.scale, Vec3.div, Ship.getPosition,
      sampleModel]

/-- Witness for C7: the sample lander hits terrain at 5 units per second, then
flies one tick over empty space. -/
theorem impulse_single_tick_witness :
    ((update touchingWorld (sampleApp ⟨0, -5, 0⟩)).lander.impulseForce = Vec3.zero ∧
      (update touchingWorld (sampleApp ⟨0, -5, 0⟩)).lander.forces = Vec3.zero) ∧
    (update touchingWorld (sampleApp ⟨0, -5, 0⟩)).lander.velocity =
      ((sampleApp ⟨0, -5, 0⟩).lander.velocity.add (((sampleApp ⟨0, -5, 0⟩).lander.acceleration.add
        (((sampleApp ⟨0, -5, 0⟩).lander.gravity.add (sampleApp ⟨0, -5, 0⟩).lander.appliedThrust).add
          ⟨0, -111 * (sampleApp ⟨0, -5, 0⟩).lander.velocity.y, 0⟩)).scale dt)).scale
            (sampleApp ⟨0, -5, 0⟩).lander.damping ∧
    (update emptyWorld (update touchingWorld (sampleApp ⟨0, -5, 0⟩))).lander.velocity =
      ((update touchingWorld (sampleApp ⟨0, -5, 0⟩)).lander.velocity.add
        (((update touchingWorld (sampleApp ⟨0, -5, 0⟩)).lander.acceleration.add
          ((update touchingWorld (sampleApp ⟨0, -5, 0⟩)).lander.gravity.add
            (update touchingWorld (sampleApp ⟨0, -5, 0⟩)).lander.appliedThrust)).scale dt)).scale
              (update touchingWorld (sampleApp ⟨0, -5, 0⟩)).lander.damping :=
  have h := impulse_single_tick (sampleShip ⟨0, -5, 0⟩) touchingWorld emptyWorld
    (sampleApp ⟨0, -5, 0⟩)
  ⟨h.2.1 rfl rfl,
   h.2.2.1 rfl rfl (by simp [touchingWorld]) (by norm_num [sampleApp, sampleShip]),
   h.2.2.2 rfl rfl sample_tick_mid_band.1 (Or.inl rfl)⟩

/-! ## Rotation and bounding box -/

/-- C8. One call of `Ship::integrateTurn` yields `rotation + turnVelocity/60`
(the turn velocity from before the call) and
`(turnVelocity + turnAcceleration/60) * damping`: the two stages, the step `dt`
and the damping of the translational integrator. -/
theorem integrateTurn_semi_implicit (s : Ship) :
    s.integrateTurn.rotation = s.rotation + s.turnVelocity / 60 ∧
    s.integrateTurn.turnVelocity = (s.turnVelocity + s.turnAcceleration / 60) * s.damping ∧
    s.integrateTurn.rotation = s.rotation + s.turnVelocity * dt ∧
    s.integrateTurn.turnVelocity = (s.turnVelocity + s.turnAcceleration * dt) * s.damping ∧
    s.integrateTurn.damping = s.damping := by
  cases hl : s.shipLoaded <;>
    simp [Ship.integrateTurn, Ship.setRotation, Ship.getShipLoaded, hl, dt, div_eq_mul_inv]

/-- C9. For a loaded ship `Ship::updateBoundingBox` makes the bounding box the
static model extents translated by the current position, which it leaves alone;
extents with `sceneMin <= sceneMax` on every axis give a box with `min <= max` on
every axis; and in a simulated tick the collision query is made with exactly
that box at the position the lander has then (the tick's hit list is the query
answer for it). -/
theorem updateBoundingBox_translates (s : Ship) (w : World) (a : App)
    (hl : s.shipLoaded = true) :
    s.updateBoundingBox.shipBBox =
      ⟨s.shipModel.sceneMin.add s.position, s.shipModel.sceneMax.add s.position⟩ ∧
    s.updateBoundingBox.position = s.position ∧
    (s.shipModel.sceneMin.x ≤ s.shipModel.sceneMax.x ∧
      s.shipModel.sceneMin.y ≤ s.shipModel.sceneMax.y ∧
      s.shipModel.sceneMin.z ≤ s.shipModel.sceneMax.z →
      s.updateBoundingBox.shipBBox.min.x ≤ s.updateBoundingBox.shipBBox.max.x ∧
      s.updateBoundingBox.shipBBox.min.y ≤ s.updateBoundingBox.shipBBox.max.y ∧
      s.updateBoundingBox.shipBBox.min.z ≤ s.updateBoundingBox.shipBBox.max.z) ∧
    (a.lander.shipLoaded = true → a.gameOver = false → a.standBy = false →
      (update w a).colBoxList =
        w.boxQuery ⟨a.lander.shipModel.sceneMin.add a.lander.position,
                    a.lander.shipModel.sceneMax.add a.lander.position⟩) := by
  have hbox : ∀ t : Ship, t.shipLoaded = true → t.updateBoundingBox.shipBBox =
      ⟨t.shipModel.sceneMin.add t.position, t.shipModel.sceneMax.add t.position⟩ := by
    intro t ht
    simp [Ship.updateBoundingBox, Ship.getShipLoaded, Ship.getShipModel, Ship.getPosition, ht]
  refine ⟨hbox s hl, (updateBoundingBox_fields s).2.2.2.2.2.2, ?_, ?_⟩
  · intro h
    rw [hbox s hl]
    simp only [Vec3.add]
    exact ⟨by linarith [h.1], by linarith [h.2.1], by linarith [h.2.2]⟩
  · intro hal hg hs
    rw [update_running w a hg hs, (afterCollisions_flags w _).2.2.2.1]
    have hq : (checkCollisions w (beforeCollisions a)).colBoxList =
        w.boxQuery (beforeCollisions a).lander.shipBBox := by
      by_cases hm : w.boxQuery (beforeCollisions a).lander.shipBBox = [] ∨
          0 ≤ (beforeCollisions a).lander.velocity.y
      · rw [checkCollisions_miss w _ hm]
      · have hhit : w.boxQuery (beforeCollisions a).lander.shipBBox ≠ [] :=
          fun h => hm (Or.inl h)
        have hv : (beforeCollisions a).lander.velocity.y < 0 :=
          not_le.mp (fun h => hm (Or.inr h))
        rw [checkCollisions_hit w _ hhit hv]
        split_ifs <;> rfl
    rw [hq]
    show w.boxQuery a.lander.updateBoundingBox.shipBBox = _
    rw [hbox a.lander hal]

/-- Witness for C9: the sample lander, whose model spans `(-1,0,-1)`..`(1,2,1)`,
at the spawn point. -/
theorem updateBoundingBox_translates_witness :
    (sampleShip ⟨0, -3, 0⟩).updateBoundingBox.shipBBox =
      ⟨(sampleShip ⟨0, -3, 0⟩).shipModel.sceneMin.add (sampleShip ⟨0, -3, 0⟩).position,
       (sampleShip ⟨0, -3, 0⟩).shipModel.sceneMax.add (sampleShip ⟨0, -3, 0⟩).position⟩ ∧
    ((sampleShip ⟨0, -3, 0⟩).updateBoundingBox.shipBBox.min.x ≤
        (sampleShip ⟨0, -3, 0⟩).updateBoundingBox.shipBBox.max.x ∧
      (sampleShip ⟨0, -3, 0⟩).updateBoundingBox.shipBBox.min.y ≤
        (sampleShip ⟨0, -3, 0⟩).updateBoundingBox.shipBBox.max.y ∧
      (sampleShip ⟨0, -3, 0⟩).updateBoundingBox.shipBBox.min.z ≤
        (sampleShip ⟨0, -3, 0⟩).updateBoundingBox.shipBBox.max.z) ∧
    (update touchingWorld (sampleApp ⟨0, -3, 0⟩)).colBoxList =
      touchingWorld.boxQuery
        ⟨(sampleApp ⟨0, -3, 0⟩).lander.shipModel.sceneMin.add (sampleApp ⟨0, -3, 0⟩).lander.position,
         (sampleApp ⟨0, -3, 0⟩).lander.shipModel.sceneMax.add
           (sampleApp ⟨0, -3, 0⟩).lander.position⟩ :=
  have h := updateBoundingBox_translates (sampleShip ⟨0, -3, 0⟩) touchingWorld
    (sampleApp ⟨0, -3, 0⟩) rfl
  ⟨h.1, h.2.2.1 (by norm_num [sampleShip, sampleModel]), h.2.2.2 rfl rfl rfl⟩

/-! ## Landed and stand-by -/

/-- A run of ticks outside a running game changes nothing. -/
theorem runTicks_idle (ws : List World) (a : App)
    (h : a.gameOver = true ∨ a.standBy = true) : runTicks ws a = a := by
  induction ws with
  | nil => rfl
  | cons w ws ih => rw [runTicks, update_idle w a h, ih]

/-- One tick of the sample lander falling at 3 units per second onto terrain
ends with the lander landed. -/
theorem sample_tick_lands :
    (update touchingWorld (sampleApp ⟨0, -3, 0⟩)).lander.landed = true := by
  have hhit : touchingWorld.boxQuery
      (beforeCollisions (sampleApp ⟨0, -3, 0⟩)).lander.shipBBox ≠ [] := by
    simp [touchingWorld]
  have hv : (beforeCollisions (sampleApp ⟨0, -3, 0⟩)).lander.velocity.y < 0 := by
    norm_num [beforeCollisions, sampleApp, sampleShip, Ship.updateBoundingBox, Ship.getShipLoaded]
  rw [update_running _ _ rfl rfl, afterCollisions_lander, checkCollisions_hit _ _ hhit hv]
  norm_num [beforeCollisions, sampleApp, sampleShip, Ship.updateBoundingBox,
    Ship.getShipLoaded, withImpulse, Ship.integrate, Ship.integrateTurn, Ship.setPosition,
    Ship.setRotation, Ship.addForces]

/-- C10. Landed is terminal until reset.  A simulated tick that ends with
`landed = true` also ends with `gameOver = true`, and every later call of
`update` returns the state unchanged (in particular position, velocity, rotation,
turn velocity, `landed` and `exploded`); in general `update` is the identity
whenever `gameOver` holds, and likewise whenever `standBy` holds. -/
theorem landed_terminal (w : World) (ws : List World) (a : App) :
    (a.gameOver = false → a.standBy = false → (update w a).lander.landed = true →
      (update w a).gameOver = true ∧ runTicks ws (update w a) = update w a ∧
      (runTicks ws (update w a)).lander.position = (update w a).lander.position ∧
      (runTicks ws (update w a)).lander.velocity = (update w a).lander.velocity ∧
      (runTicks ws (update w a)).lander.rotation = (update w a).lander.rotation ∧
      (runTicks ws (update w a)).lander.turnVelocity = (update w a).lander.turnVelocity ∧
      (runTicks ws (update w a)).lander.landed = true ∧
      (runTicks ws (update w a)).exploded = (update w a).exploded) ∧
    (a.gameOver = true → update w a = a ∧ runTicks ws a = a) ∧
    (a.standBy = true → update w a = a ∧ runTicks ws a = a) := by
  refine ⟨?_, ?_, ?_⟩
  · intro hg hs hl
    have hgo : (update w a).gameOver = true := by
      have hl2 := hl
      rw [update_running w a hg hs] at hl2 ⊢
      rw [afterCollisions_lander] at hl2
      rw [(afterCollisions_flags w _).2.2.2.2.2.2]
      have hk := (integrate_keeps (checkCollisions w (beforeCollisions a)).lander).1
      have : (checkCollisions w (beforeCollisions a)).lander.landed = true := by
        rw [← hk]
        split_ifs at hl2
        · exact hl2
        · exact hl2
      rw [this]; rfl
    have hrun := runTicks_idle ws (update w a) (Or.inl hgo)
    refine ⟨hgo, hrun, ?_, ?_, ?_, ?_, ?_, ?_⟩ <;> rw [hrun]
    exact hl
  · intro hg
    exact ⟨update_idle w a (Or.inl hg), runTicks_idle ws a (Or.inl hg)⟩
  · intro hs
    exact ⟨update_idle w a (Or.inr hs), runTicks_idle ws a (Or.inr hs)⟩

/-- Witness for C10: the sample lander touches down at 3 units per second and
two further ticks change nothing. -/
theorem landed_terminal_witness :
    (update touchingWorld (sampleApp ⟨0, -3, 0⟩)).gameOver = true ∧
    runTicks [touchingWorld, emptyWorld] (update touchingWorld (sampleApp ⟨0, -3, 0⟩)) =
      update touchingWorld (sampleApp ⟨0, -3, 0⟩) :=
  have h := (landed_terminal touchingWorld [touchingWorld, emptyWorld]
    (sampleApp ⟨0, -3, 0⟩)).1 rfl rfl sample_tick_lands
  ⟨h.1, h.2.1⟩

/-! ## The rebound on the landing tick -/

/-- The velocity after a simulated tick in which the lander collides: the
impulse `(0, -111 * v.y, 0)` is part of the force. -/
theorem update_velocity_of_hit (w : World) (a : App)
    (hg : a.gameOver = false) (hs : a.standBy = false)
    (hhit : w.boxQuery (beforeCollisions a).lander.shipBBox ≠ [])
    (hv : a.lander.velocity.y < 0) :
    (update w a).lander.velocity =
      (a.lander.velocity.add ((a.lander.acceleration.add
        ((a.lander.gravity.add a.lander.appliedThrust).add
          ⟨0, -111 * a.lander.velocity.y, 0⟩)).scale (1 / 60))).scale a.lander.damping := by
  have hb := updateBoundingBox_fields a.lander
  have hv2 : (beforeCollisions a).lander.velocity.y < 0 := by
    show a.lander.updateBoundingBox.velocity.y < 0
    rw [hb.1]; exact hv
  have e1 : (beforeCollisions a).lander.velocity = a.lander.velocity := hb.1
  rw [update_running w a hg hs, afterCollisions_lander,
    checkCollisions_hit w (beforeCollisions a) hhit hv2]
  split_ifs <;>
    simp only [integrate_velocity, withImpulse, e1] <;>
    simp only [beforeCollisions, hb]

/-- The `landed` flag after a simulated tick is the one `checkCollisions` leaves. -/
theorem update_landed (w : World) (a : App)
    (hg : a.gameOver = false) (hs : a.standBy = false) :
    (update w a).lander.landed = (checkCollisions w (beforeCollisions a)).lander.landed := by
  rw [update_running w a hg hs, afterCollisions_lander]
  split_ifs
  · exact (integrate_keeps _).1
  · exact (integrate_keeps _).1

/-- C19. In a flying tick with a non-empty hit list and `v.y < 0` the impulse of
`checkCollisions` enters the integration of the same tick: the vertical velocity
after the tick is
`damping * (v.y + (acceleration.y + gravity.y + appliedThrust.y - 111*v.y)/60)`.
With `gravity.y = -8`, `damping = 0.99`, no thrust nor manual acceleration and
`v.y = -3` it is positive, on the very tick that sets `landed`. -/
theorem landing_tick_rebounds (w : World) (a : App)
    (hg : a.gameOver = false) (hs : a.standBy = false)
    (hhit : w.boxQuery (beforeCollisions a).lander.shipBBox ≠ [])
    (hv : a.lander.velocity.y < 0) :
    (update w a).lander.velocity.y =
      a.lander.damping * (a.lander.velocity.y +
        (a.lander.acceleration.y + a.lander.gravity.y + a.lander.appliedThrust.y
          - 111 * a.lander.velocity.y) / 60) ∧
    (a.lander.gravity.y = -8 → a.lander.damping = 0.99 → a.lander.appliedThrust.y = 0 →
      a.lander.acceleration.y = 0 → a.lander.velocity.y = -3 →
      0 < (update w a).lander.velocity.y ∧ (update w a).lander.landed = true) := by
  have hvel : (update w a).lander.velocity.y =
      a.lander.damping * (a.lander.velocity.y +
        (a.lander.acceleration.y + a.lander.gravity.y + a.lander.appliedThrust.y
          - 111 * a.lander.velocity.y) / 60) := by
    rw [update_velocity_of_hit w a hg hs hhit hv]
    simp only [Vec3.add, Vec3.scale]
    ring
  refine ⟨hvel, ?_⟩
  intro h1 h2 h3 h4 h5
  constructor
  · rw [hvel, h1, h2, h3, h4, h5]; norm_num
  · have hb := updateBoundingBox_fields a.lander
    have hv2 : (beforeCollisions a).lander.velocity.y < 0 := by
      show a.lander.updateBoundingBox.velocity.y < 0
      rw [hb.1]; exact hv
    have e1 : (beforeCollisions a).lander.velocity.y = -3 := by
      show a.lander.updateBoundingBox.velocity.y = -3
      rw [hb.1]; exact h5
    have hc : -111 * (beforeCollisions a).lander.velocity.y < 500 ∧
        -111 * (beforeCollisions a).lander.velocity.y > 0 := by
      rw [e1]; constructor <;> norm_num
    have hg2 : (beforeCollisions a).gameOver = false := hg
    rw [update_landed w a hg hs, checkCollisions_hit w (beforeCollisions a) hhit hv2,
      if_pos hc, if_pos hg2]

/-- Witness for C19: the sample lander touching down at 3 units per second
leaves the tick rising at 957/400 units per second. -/
theorem landing_tick_rebounds_witness :
    (update touchingWorld (sampleApp ⟨0, -3, 0⟩)).lander.velocity.y = 957 / 400 ∧
    0 < (update touchingWorld (sampleApp ⟨0, -3, 0⟩)).lander.velocity.y ∧
    (update touchingWorld (sampleApp ⟨0, -3, 0⟩)).lander.landed = true := by
  have h := landing_tick_rebounds touchingWorld (sampleApp ⟨0, -3, 0⟩) rfl rfl
    (by simp [touchingWorld]) (by norm_num [sampleApp, sampleShip])
  refine ⟨?_, h.2 rfl rfl rfl rfl rfl⟩
  rw [h.1]
  norm_num [sampleApp, sampleShip]

/-! ## The altitude sensor -/

/-- The position and loaded flag after the integration steps. -/
theorem integrate_position (s : Ship) :
    s.integrate.integrateTurn.position =
      (if s.shipLoaded then s.position.add ((s.velocity.scale 1).div 60) else s.position) ∧
    s.integrate.integrateTurn.shipLoaded = s.shipLoaded := by
  cases hl : s.shipLoaded <;>
    simp [Ship.integrate, Ship.integrateTurn, Ship.setPosition, Ship.setRotation,
      Ship.getShipLoaded, Ship.getPosition, Ship.addForces, hl]

/-- The point that the sensor query hands back: the hit, or the point passed in. -/
theorem raySelectLine_snd (w : World) (a : App) (p : Vec3) :
    (raySelectLine w a p).2.1 = (w.rayQuery a.topPos).getD p := by
  unfold raySelectLine
  cases w.rayQuery a.topPos <;> rfl

/-- The camera `top`, the sensor reading and the lander position that the tail
of a tick leaves. -/
theorem afterCollisions_sensor (w : World) (c : App) :
    (afterCollisions w c).topPos =
      (if c.lander.integrate.integrateTurn.shipLoaded
        then c.lander.integrate.integrateTurn.position else c.topPos) ∧
    (afterCollisions w c).lander.position = c.lander.integrate.integrateTurn.position ∧
    (afterCollisions w c).altitude =
      c.lander.integrate.integrateTurn.position.y -
        ((w.rayQuery (afterCollisions w c).topPos).getD Vec3.zero).y := by
  have htop : (afterCollisions w c).topPos =
      (if c.lander.integrate.integrateTurn.shipLoaded
        then c.lander.integrate.integrateTurn.position else c.topPos) := by
    simp only [afterCollisions, raySelectLine_fst, Ship.getShipLoaded, Ship.getPosition]
    split_ifs <;> rfl
  refine ⟨htop, ?_, ?_⟩
  · rw [afterCollisions_lander]
    split_ifs <;> rfl
  · rw [htop]
    simp only [afterCollisions, raySelectLine_fst, raySelectLine_snd, Ship.getShipLoaded,
      Ship.getPosition]
    generalize c.lander.integrate.integrateTurn = L
    split_ifs <;> rfl

/-- C14. In every simulated tick the altitude stored by `update` is the height
of the lander after integration minus the height of the terrain point that the
sensor ray hits; when the ray hits nothing the hit point keeps its default
`(0,0,0)` and the altitude is the height of the lander.  For a loaded lander the
ray starts at the camera `top`, which sits at the position after integration,
`position + velocity/60`. -/
theorem altitude_after_tick (w : World) (a : App)
    (hg : a.gameOver = false) (hs : a.standBy = false) :
    (∀ hit : Vec3, w.rayQuery (update w a).topPos = some hit →
      (update w a).altitude = (update w a).lander.position.y - hit.y) ∧
    (w.rayQuery (update w a).topPos = none →
      (update w a).altitude = (update w a).lander.position.y) ∧
    (a.lander.shipLoaded = true →
      (update w a).topPos = (update w a).lander.position ∧
      (update w a).lander.position = a.lander.position.add (a.lander.velocity.scale dt)) := by
  have hu := update_running w a hg hs
  have hsen := afterCollisions_sensor w (checkCollisions w (beforeCollisions a))
  rw [← hu] at hsen
  obtain ⟨htop, hpos, halt⟩ := hsen
  refine ⟨?_, ?_, ?_⟩
  · intro hit hq
    rw [halt, hpos, hq]; rfl
  · intro hq
    rw [halt, hpos, hq]
    simp [Vec3.zero]
  · intro hl
    have hcl : (checkCollisions w (beforeCollisions a)).lander.shipLoaded = true ∧
        (checkCollisions w (beforeCollisions a)).lander.position = a.lander.position ∧
        (checkCollisions w (beforeCollisions a)).lander.velocity = a.lander.velocity := by
      have hb : (beforeCollisions a).lander.shipLoaded = true ∧
          (beforeCollisions a).lander.position = a.lander.position ∧
          (beforeCollisions a).lander.velocity = a.lander.velocity := by
        simp [beforeCollisions, Ship.updateBoundingBox, Ship.getShipLoaded, hl]
      by_cases hm : w.boxQuery (beforeCollisions a).lander.shipBBox = [] ∨
          0 ≤ (beforeCollisions a).lander.velocity.y
      · rw [checkCollisions_miss w _ hm]; exact hb
      · have hhit : w.boxQuery (beforeCollisions a).lander.shipBBox ≠ [] :=
          fun h => hm (Or.inl h)
        have hv : (beforeCollisions a).lander.velocity.y < 0 :=
          not_le.mp (fun h => hm (Or.inr h))
        rw [checkCollisions_hit w _ hhit hv]
        split_ifs <;> exact hb
    have hip := integrate_position (checkCollisions w (beforeCollisions a)).lander
    rw [hip.2, hcl.1] at htop
    rw [hip.1, hcl.1, hcl.2.1, hcl.2.2] at hpos
    rw [hip.1, hcl.1, hcl.2.1, hcl.2.2] at htop
    refine ⟨by rw [htop, hpos]; rfl, ?_⟩
    rw [hpos]
    simp [Vec3.add, Vec3.scale, Vec3.div, dt, div_eq_mul_inv]

/-- Witness for C14: the sample lander in free fall over empty space reads its
own height `30 - 3/60` as altitude. -/
theorem altitude_after_tick_witness :
    (update emptyWorld (sampleApp ⟨0, -3, 0⟩)).altitude =
      (update emptyWorld (sampleApp ⟨0, -3, 0⟩)).lander.position.y ∧
    (update emptyWorld (sampleApp ⟨0, -3, 0⟩)).lander.position =
      (sampleApp ⟨0, -3, 0⟩).lander.position.add ((sampleApp ⟨0, -3, 0⟩).lander.velocity.scale dt) :=
  have h := altitude_after_tick emptyWorld (sampleApp ⟨0, -3, 0⟩) rfl rfl
  ⟨h.2.1 rfl, (h.2.2 rfl).2⟩

/-! ## The game-over text -/

/-- C15. At game over the text shown is the win text `You landed!` if and only
if the lander has not exploded and `inBounds` holds; an exploded lander gets the
`landed too hard` text whatever `inBounds` is, and the remaining case gets the
`did not land in correct area` text.  `inBounds` is what the last simulated tick
stored: the overlap of the refreshed bounding box with the valid landing area;
later calls of `update` at game over keep it. -/
theorem gameOverText_outcome (w : World) (a : App) :
    (a.gameOver = true →
      (gameOverText a = some "You landed!" ↔ (a.exploded = false ∧ a.inBounds = true)) ∧
      (a.exploded = true → gameOverText a = some "You lose: landed too hard") ∧
      (a.exploded = false → a.inBounds = false →
        gameOverText a = some "You lose: did not land in correct area")) ∧
    (a.gameOver = false → a.standBy = false →
      (update w a).inBounds = a.lander.updateBoundingBox.shipBBox.overlap a.validLandingArea) ∧
    (a.gameOver = true → (update w a).inBounds = a.inBounds ∧
      (update w a).exploded = a.exploded ∧ gameOverText (update w a) = gameOverText a) := by
  refine ⟨?_, ?_, ?_⟩
  · intro hg
    cases he : a.exploded <;> cases hi : a.inBounds <;> simp [gameOverText, hg, he, hi]
  · intro hg hs
    rw [update_running w a hg hs, (afterCollisions_flags w _).2.2.2.2.1]
    by_cases hm : w.boxQuery (beforeCollisions a).lander.shipBBox = [] ∨
        0 ≤ (beforeCollisions a).lander.velocity.y
    · rw [checkCollisions_miss w _ hm]; rfl
    · have hhit : w.boxQuery (beforeCollisions a).lander.shipBBox ≠ [] :=
        fun h => hm (Or.inl h)
      have hv : (beforeCollisions a).lander.velocity.y < 0 :=
        not_le.mp (fun h => hm (Or.inr h))
      rw [checkCollisions_hit w _ hhit hv]
      split_ifs <;> rfl
  · intro hg
    rw [update_idle w a (Or.inl hg)]
    exact ⟨rfl, rfl, rfl⟩

/-- Witness for C15: a landing outside the area loses, the same landing inside
the area wins, and an exploded lander loses even inside the area. -/
theorem gameOverText_outcome_witness :
    gameOverText (landedApp (fun _ => false)) =
      some "You lose: did not land in correct area" ∧
    gameOverText { landedApp (fun _ => false) with inBounds := true } = some "You landed!" ∧
    gameOverText { landedApp (fun _ => false) with inBounds := true, exploded := true } =
      some "You lose: landed too hard" :=
  ⟨((gameOverText_outcome emptyWorld (landedApp (fun _ => false))).1 rfl).2.2 rfl rfl,
   ((gameOverText_outcome emptyWorld
      { landedApp (fun _ => false) with inBounds := true }).1 rfl).1.mpr ⟨rfl, rfl⟩,
   ((gameOverText_outcome emptyWorld
      { landedApp (fun _ => false) with inBounds := true, exploded := true }).1 rfl).2.1 rfl⟩

/-! ## The mesh bounding box -/

/-- What one pass of the loop does on each axis: a coordinate above the running
maximum raises it, otherwise one below the running minimum lowers that. -/
theorem boundsStep_axes (b : Bounds) (v : Vec3) :
    ((boundsStep b v).max.x = (if v.x > b.max.x then v.x else b.max.x) ∧
      (boundsStep b v).min.x =
        (if v.x > b.max.x then b.min.x else if v.x < b.min.x then v.x else b.min.x)) ∧
    ((boundsStep b v).max.y = (if v.y > b.max.y then v.y else b.max.y) ∧
      (boundsStep b v).min.y =
        (if v.y > b.max.y then b.min.y else if v.y < b.min.y then v.y else b.min.y)) ∧
    ((boundsStep b v).max.z = (if v.z > b.max.z then v.z else b.max.z) ∧
      (boundsStep b v).min.z =
        (if v.z > b.max.z then b.min.z else if v.z < b.min.z then v.z else b.min.z)) := by
  by_cases hx1 : v.x > b.max.x <;> by_cases hx2 : v.x < b.min.x <;>
    by_cases hy1 : v.y > b.max.y <;> by_cases hy2 : v.y < b.min.y <;>
    by_cases hz1 : v.z > b.max.z <;> by_cases hz2 : v.z < b.min.z <;>
    simp [boundsStep, hx1, hx2, hy1, hy2, hz1, hz2]

/-- The loop invariant on one axis, read through the coordinate `f` and the
accessors `hi`, `lo` of the running bounds: the bounds are ordered, enclose every
vertex seen so far, and each is the coordinate of a vertex seen so far. -/
theorem foldl_boundsStep_axis (f : Vec3 → ℚ) (hi lo : Bounds → ℚ)
    (hstep : ∀ b v, hi (boundsStep b v) = (if f v > hi b then f v else hi b) ∧
      lo (boundsStep b v) = (if f v > hi b then lo b else if f v < lo b then f v else lo b))
    (vs : List Vec3) (b : Bounds) (seen : List Vec3)
    (hinv : lo b ≤ hi b ∧ (∀ v ∈ seen, lo b ≤ f v ∧ f v ≤ hi b) ∧
      (∃ v ∈ seen, f v = lo b) ∧ (∃ v ∈ seen, f v = hi b)) :
    lo (vs.foldl boundsStep b) ≤ hi (vs.foldl boundsStep b) ∧
    (∀ v ∈ seen ++ vs,
      lo (vs.foldl boundsStep b) ≤ f v ∧ f v ≤ hi (vs.foldl boundsStep b)) ∧
    (∃ v ∈ seen ++ vs, f v = lo (vs.foldl boundsStep b)) ∧
    (∃ v ∈ seen ++ vs, f v = hi (vs.foldl boundsStep b)) := by
  induction vs generalizing b seen with
  | nil => simpa using hinv
  | cons x xs ih =>
    obtain ⟨hord, hall, ⟨vlo, hvlo, hlo⟩, ⟨vhi, hvhi, hhi⟩⟩ := hinv
    have hs := hstep b x
    have hnext : lo (boundsStep b x) ≤ hi (boundsStep b x) ∧
        (∀ v ∈ seen ++ [x], lo (boundsStep b x) ≤ f v ∧ f v ≤ hi (boundsStep b x)) ∧
        (∃ v ∈ seen ++ [x], f v = lo (boundsStep b x)) ∧
        (∃ v ∈ seen ++ [x], f v = hi (boundsStep b x)) := by
      rw [hs.1, hs.2]
      by_cases h1 : f x > hi b
      · simp only [if_pos h1]
        refine ⟨by linarith, ?_, ⟨vlo, by simp [hvlo], hlo⟩, ⟨x, by simp, rfl⟩⟩
        intro v hv
        rcases List.mem_append.mp hv with hv | hv
        · exact ⟨(hall v hv).1, by linarith [(hall v hv).2]⟩
        · rw [List.mem_singleton.mp hv]; exact ⟨by linarith, le_refl _⟩
      · simp only [if_neg h1]
        by_cases h2 : f x < lo b
        · simp only [if_pos h2]
          refine ⟨by linarith, ?_, ⟨x, by simp, rfl⟩, ⟨vhi, by simp [hvhi], hhi⟩⟩
          intro v hv
          rcases List.mem_append.mp hv with hv | hv
          · exact ⟨by linarith [(hall v hv).1], (hall v hv).2⟩
          · rw [List.mem_singleton.mp hv]; exact ⟨le_refl _, by linarith⟩
        · simp only [if_neg h2]
          refine ⟨hord, ?_, ⟨vlo, by simp [hvlo], hlo⟩, ⟨vhi, by simp [hvhi], hhi⟩⟩
          intro v hv
          rcases List.mem_append.mp hv with hv | hv
          · exact hall v hv
          · rw [List.mem_singleton.mp hv]; exact ⟨not_lt.mp h2, not_lt.mp h1⟩
    have := ih (boundsStep b x) (seen ++ [x]) hnext
    simpa [List.foldl, List.append_assoc] using this

/-- C16. For a mesh with at least one vertex `meshBounds` returns the tight
axis-aligned bound: on each axis `min` is the least and `max` the greatest
coordinate over all vertices (every vertex lies inside, both bounds are
coordinates of vertices, and `min <= max`), although each vertex updates at most
one of the two per axis through the if / else-if. -/
theorem meshBounds_tight (mesh : List Vec3) (hne : mesh ≠ []) :
    ∃ box : Box, meshBounds mesh = some box ∧
      (∀ v ∈ mesh, (box.min.x ≤ v.x ∧ v.x ≤ box.max.x) ∧ (box.min.y ≤ v.y ∧ v.y ≤ box.max.y) ∧
        (box.min.z ≤ v.z ∧ v.z ≤ box.max.z)) ∧
      ((∃ v ∈ mesh, v.x = box.min.x) ∧ (∃ v ∈ mesh, v.x = box.max.x)) ∧
      ((∃ v ∈ mesh, v.y = box.min.y) ∧ (∃ v ∈ mesh, v.y = box.max.y)) ∧
      ((∃ v ∈ mesh, v.z = box.min.z) ∧ (∃ v ∈ mesh, v.z = box.max.z)) ∧
      (box.min.x ≤ box.max.x ∧ box.min.y ≤ box.max.y ∧ box.min.z ≤ box.max.z) := by
  cases mesh with
  | nil => exact absurd rfl hne
  | cons v0 rest =>
    have hx := foldl_boundsStep_axis (fun v => v.x) (fun b => b.max.x) (fun b => b.min.x)
      (fun b v => (boundsStep_axes b v).1) rest { max := v0, min := v0 } [v0]
      ⟨le_refl _, by simp, ⟨v0, by simp, rfl⟩, ⟨v0, by simp, rfl⟩⟩
    have hy := foldl_boundsStep_axis (fun v => v.y) (fun b => b.max.y) (fun b => b.min.y)
      (fun b v => (boundsStep_axes b v).2.1) rest { max := v0, min := v0 } [v0]
      ⟨le_refl _, by simp, ⟨v0, by simp, rfl⟩, ⟨v0, by simp, rfl⟩⟩
    have hz := foldl_boundsStep_axis (fun v => v.z) (fun b => b.max.z) (fun b => b.min.z)
      (fun b v => (boundsStep_axes b v).2.2) rest { max := v0, min := v0 } [v0]
      ⟨le_refl _, by simp, ⟨v0, by simp, rfl⟩, ⟨v0, by simp, rfl⟩⟩
    simp only [List.singleton_append] at hx hy hz
    refine ⟨_, rfl, ?_, ⟨hx.2.2.1, hx.2.2.2⟩, ⟨hy.2.2.1, hy.2.2.2⟩, ⟨hz.2.2.1, hz.2.2.2⟩,
      ⟨hx.1, hy.1, hz.1⟩⟩
    intro v hv
    exact ⟨hx.2.1 v hv, hy.2.1 v hv, hz.2.1 v hv⟩

/-- The bounds of a mesh of three vertices, computed by `meshBounds`. -/
theorem meshBounds_sample :
    meshBounds [⟨0, 5, 2⟩, ⟨3, 1, 2⟩, ⟨-1, 4, 7⟩] = some ⟨⟨-1, 1, 2⟩, ⟨3, 5, 7⟩⟩ := by
  norm_num [meshBounds, boundsStep, List.foldl]

/-- Witness for C16: a mesh of three vertices, with bounds `(-1,1,2)`..`(3,5,7)`. -/
theorem meshBounds_tight_witness :
    ∃ box : Box, meshBounds [⟨0, 5, 2⟩, ⟨3, 1, 2⟩, ⟨-1, 4, 7⟩] = some box ∧
      box = ⟨⟨-1, 1, 2⟩, ⟨3, 5, 7⟩⟩ ∧
      ((∃ v ∈ [(⟨0, 5, 2⟩ : Vec3), ⟨3, 1, 2⟩, ⟨-1, 4, 7⟩], v.x = box.min.x) ∧
        (∃ v ∈ [(⟨0, 5, 2⟩ : Vec3), ⟨3, 1, 2⟩, ⟨-1, 4, 7⟩], v.x = box.max.x)) :=
  (meshBounds_tight [⟨0, 5, 2⟩, ⟨3, 1, 2⟩, ⟨-1, 4, 7⟩] (by simp)).imp
    (fun box hb => ⟨hb.1, Option.some.inj (hb.1.symm.trans meshBounds_sample), hb.2.2.1⟩)

/-! ## Key presses -/

/-- A key press is its four stages in source order. -/
theorem keyPressed_stages (h : Host) (key : Int) (a : App) :
    keyPressed h key a = pressMove h (pressSpace (pressReset h (pressMark key a))) := rfl

/-- Marking the key changes the key map and possibly `showNearest`, nothing else. -/
theorem pressMark_fields (key : Int) (a : App) :
    (pressMark key a).keymap = Function.update a.keymap key true ∧
    (pressMark key a).lander = a.lander ∧
    (pressMark key a).gameOver = a.gameOver ∧
    (pressMark key a).exploded = a.exploded ∧
    (pressMark key a).inBounds = a.inBounds ∧
    (pressMark key a).standBy = a.standBy := by
  simp only [pressMark]
  split_ifs <;> exact ⟨rfl, rfl, rfl, rfl, rfl, rfl⟩

/-- One steering step: the key map and the flags stay, the lander is `f` of the
old one when the test holds. -/
theorem landerStep_fields (k : (Int → Bool) → Bool) (f : Ship → Ship) (a : App) :
    (landerStep k f a).keymap = a.keymap ∧
    (landerStep k f a).lander = (if k a.keymap then f a.lander else a.lander) ∧
    (landerStep k f a).gameOver = a.gameOver ∧
    (landerStep k f a).exploded = a.exploded ∧
    (landerStep k f a).inBounds = a.inBounds ∧
    (landerStep k f a).standBy = a.standBy := by
  unfold landerStep
  split_ifs <;> exact ⟨rfl, rfl, rfl, rfl, rfl, rfl⟩

/-- Nothing changed is a steering change. -/
theorem steeredFrom_refl (a : App) : steeredFrom a a :=
  ⟨rfl, rfl, rfl, rfl, rfl, rfl, rfl, rfl, rfl, rfl, rfl, rfl, rfl⟩

/-- Steering changes compose. -/
theorem steeredFrom_trans {a b c : App} (h1 : steeredFrom a b) (h2 : steeredFrom b c) :
    steeredFrom a c := by
  obtain ⟨a1, a2, a3, a4, a5, a6, a7, a8, a9, a10, a11, a12, a13⟩ := h1
  obtain ⟨b1, b2, b3, b4, b5, b6, b7, b8, b9, b10, b11, b12, b13⟩ := h2
  exact ⟨b1.trans a1, b2.trans a2, b3.trans a3, b4.trans a4, b5.trans a5, b6.trans a6,
    b7.trans a7, b8.trans a8, b9.trans a9, b10.trans a10, b11.trans a11, b12.trans a12,
    b13.trans a13⟩

/-- A steering step whose change `f` writes steering fields only is a steering
change. -/
theorem landerStep_steered (k : (Int → Bool) → Bool) (f : Ship → Ship) (a : App)
    (hf : ∀ l : Ship, l.steeredFrom (f l)) : steeredFrom a (landerStep k f a) := by
  unfold landerStep
  split_ifs
  · exact ⟨rfl, rfl, rfl, rfl, rfl, hf a.lander⟩
  · exact steeredFrom_refl a

/-- The movement branches of a key press as a chain of steering steps. -/
theorem pressMove_chain (h : Host) (a : App) :
    pressMove h a =
      landerStep (fun km => km h.keyUp)
        (fun l => { l with appliedThrust := Vec3.smul l.thrust ⟨0, 1, 0⟩ })
      (landerStep (fun km => km h.keyDown)
        (fun l => { l with appliedThrust := Vec3.smul l.thrust ⟨0, -1, 0⟩ })
      (landerStep (fun km => km h.keyRight)
        (fun l => { l with turnAcceleration := l.thrust * 3 })
      (landerStep (fun km => km h.keyLeft)
        (fun l => { l with turnAcceleration := l.thrust * -3 })
      (landerStep (fun km => km Key.A || km Key.a)
        (fun l => { l with appliedThrust := Vec3.smul l.thrust ⟨-1, 0, 0⟩ })
      (landerStep (fun km => km Key.D || km Key.d)
        (fun l => { l with appliedThrust := Vec3.smul l.thrust ⟨1, 0, 0⟩ })
      (landerStep (fun km => km Key.S || km Key.s)
        (fun l => { l with appliedThrust := Vec3.smul l.thrust ⟨0, 0, 1⟩ })
      (landerStep (fun km => km Key.W || km Key.w)
        (fun l => { l with appliedThrust := Vec3.smul l.thrust ⟨0, 0, -1⟩ }) a))))))) := rfl

/-- The movement branches of a key press change steering fields only. -/
theorem pressMove_steered (h : Host) (a : App) : steeredFrom a (pressMove h a) := by
  rw [pressMove_chain]
  have hs : ∀ (k : (Int → Bool) → Bool) (f : Ship → Ship) (b : App),
      (∀ l : Ship, l.steeredFrom (f l)) → steeredFrom a b → steeredFrom a (landerStep k f b) :=
    fun k f b hf hb => steeredFrom_trans hb (landerStep_steered k f b hf)
  have hid : ∀ l : Ship, ∀ v : Vec3, l.steeredFrom { l with appliedThrust := v } :=
    fun l v => ⟨rfl, rfl, rfl, rfl, rfl, rfl, rfl, rfl⟩
  have hturn : ∀ l : Ship, ∀ q : ℚ, l.steeredFrom { l with turnAcceleration := q } :=
    fun l q => ⟨rfl, rfl, rfl, rfl, rfl, rfl, rfl, rfl⟩
  refine hs _ _ _ (fun l => hid l _) (hs _ _ _ (fun l => hid l _) (hs _ _ _ (fun l => hturn l _)
    (hs _ _ _ (fun l => hturn l _) (hs _ _ _ (fun l => hid l _) (hs _ _ _ (fun l => hid l _)
    (hs _ _ _ (fun l => hid l _) (hs _ _ _ (fun l => hid l _) (steeredFrom_refl a))))))))

/-- The reset branch does nothing unless R or r is held and the game is over. -/
theorem pressReset_skip (h : Host) (a : App)
    (hno : ((a.keymap Key.R || a.keymap Key.r) && a.gameOver) = false) :
    pressReset h a = a := by
  unfold pressReset
  cases hk : (a.keymap Key.R || a.keymap Key.r) <;> cases hg : a.gameOver <;> simp_all

/-- The reset branch, when it fires, writes the spawn values. -/
theorem pressReset_fire (h : Host) (a : App)
    (hyes : ((a.keymap Key.R || a.keymap Key.r) && a.gameOver) = true) :
    (pressReset h a).keymap = a.keymap ∧
    (pressReset h a).standBy = a.standBy ∧
    (pressReset h a).exploded = false ∧
    (pressReset h a).gameOver = false ∧
    (pressReset h a).inBounds = false ∧
    (pressReset h a).lander.thrust = 25 ∧
    (pressReset h a).lander.landed = false ∧
    (pressReset h a).lander.fuel = 200 ∧
    (pressReset h a).lander.velocity = ⟨0, 0, 0⟩ ∧
    (pressReset h a).lander.rotation = 0 ∧
    (pressReset h a).lander.turnVelocity = 0 ∧
    (pressReset h a).lander.position =
      (if a.lander.shipLoaded then ⟨-50, 30, -50⟩ else a.lander.position) ∧
    (pressReset h a).lander.appliedThrust = a.lander.appliedThrust := by
  have hk : (a.keymap Key.R || a.keymap Key.r) = true := by
    cases hk : (a.keymap Key.R || a.keymap Key.r) <;> simp_all
  have hg : a.gameOver = true := by
    cases hg : a.gameOver <;> simp_all
  unfold pressReset
  rw [if_pos hk, if_pos hg]
  cases hl : a.lander.shipLoaded <;> simp [Ship.setPosition, Ship.getShipLoaded, hl]

/-- The space branch: it burns one unit of fuel and sets the upward thrust when
space is held, fuel is left and the lander has not exploded; it ends stand-by
when space is held; it touches nothing else of the lifecycle. -/
theorem pressSpace_fields (a : App) :
    (pressSpace a).keymap = a.keymap ∧
    (pressSpace a).gameOver = a.gameOver ∧
    (pressSpace a).exploded = a.exploded ∧
    (pressSpace a).inBounds = a.inBounds ∧
    (pressSpace a).lander.thrust = a.lander.thrust ∧
    (pressSpace a).lander.landed = a.lander.landed ∧
    (pressSpace a).lander.position = a.lander.position ∧
    (pressSpace a).lander.velocity = a.lander.velocity ∧
    (pressSpace a).lander.rotation = a.lander.rotation ∧
    (pressSpace a).lander.fuel =
      (if a.keymap Key.space = true ∧ a.lander.fuel > 0 ∧ a.exploded = false
        then a.lander.fuel - 1 else a.lander.fuel) ∧
    (pressSpace a).lander.appliedThrust =
      (if a.keymap Key.space = true ∧ a.lander.fuel > 0 ∧ a.exploded = false
        then Vec3.smul a.lander.thrust ⟨0, 1, 0⟩ else a.lander.appliedThrust) := by
  unfold pressSpace
  by_cases hsp : a.keymap Key.space = true
  · by_cases hf : a.lander.fuel > 0 ∧ a.exploded = false
    · cases hst : a.standBy <;> simp [hsp, hf, hst]
    · have hf2 : ¬ (0 < a.lander.fuel ∧ a.exploded = false) := hf
      cases hst : a.standBy <;> simp [hsp, hf2, hst]
  · simp [hsp]

/-- A key press in which the reset does not fire: the lifecycle flags, the
thrust setting and the motion of the lander stay; the fuel drops by one exactly
when space is held, fuel is left and the lander has not exploded. -/
theorem keyPressed_no_reset (h : Host) (key : Int) (a : App)
    (hno : resetFires key a = false) :
    (keyPressed h key a).keymap = Function.update a.keymap key true ∧
    (keyPressed h key a).gameOver = a.gameOver ∧
    (keyPressed h key a).exploded = a.exploded ∧
    (keyPressed h key a).inBounds = a.inBounds ∧
    (keyPressed h key a).lander.thrust = a.lander.thrust ∧
    (keyPressed h key a).lander.landed = a.lander.landed ∧
    (keyPressed h key a).lander.position = a.lander.position ∧
    (keyPressed h key a).lander.velocity = a.lander.velocity ∧
    (keyPressed h key a).lander.rotation = a.lander.rotation ∧
    (keyPressed h key a).lander.fuel =
      (if Function.update a.keymap key true Key.space = true ∧ a.lander.fuel > 0 ∧
          a.exploded = false
        then a.lander.fuel - 1 else a.lander.fuel) := by
  have hm := pressMark_fields key a
  have hr : pressReset h (pressMark key a) = pressMark key a := by
    apply pressReset_skip
    rw [hm.1, hm.2.2.1]
    exact hno
  have hsp := pressSpace_fields (pressMark key a)
  have hmv := pressMove_steered h (pressSpace (pressMark key a))
  rw [keyPressed_stages, hr]
  obtain ⟨m1, m2, m3, m4, _, m6, m7, m8, m9, m10, m11, _, _⟩ := hmv
  obtain ⟨s1, s2, s3, s4, s5, s6, s7, s8, s9, s10, _⟩ := hsp
  obtain ⟨k1, k2, k3, k4, k5, _⟩ := hm
  refine ⟨by rw [m1, s1, k1], by rw [m2, s2, k3], by rw [m3, s3, k4], by rw [m4, s4, k5],
    by rw [m6, s5, k2], by rw [m7, s6, k2], by rw [m9, s7, k2], by rw [m10, s8, k2],
    by rw [m11, s9, k2], ?_⟩
  rw [m8, s10, k1, k2, k4]

/-- A key press in which the reset fires (R or r held, game over): the spawn
values are written, and the same call burns one unit of fuel if space is held. -/
theorem keyPressed_reset (h : Host) (key : Int) (a : App)
    (hyes : resetFires key a = true) :
    (keyPressed h key a).keymap = Function.update a.keymap key true ∧
    (keyPressed h key a).gameOver = false ∧
    (keyPressed h key a).exploded = false ∧
    (keyPressed h key a).inBounds = false ∧
    (keyPressed h key a).lander.thrust = 25 ∧
    (keyPressed h key a).lander.landed = false ∧
    (keyPressed h key a).lander.position =
      (if a.lander.shipLoaded then ⟨-50, 30, -50⟩ else a.lander.position) ∧
    (keyPressed h key a).lander.velocity = ⟨0, 0, 0⟩ ∧
    (keyPressed h key a).lander.rotation = 0 ∧
    (keyPressed h key a).lander.fuel =
      (if Function.update a.keymap key true Key.space = true then 199 else 200) := by
  have hm := pressMark_fields key a
  have hr := pressReset_fire h (pressMark key a) (by rw [hm.1, hm.2.2.1]; exact hyes)
  have hsp := pressSpace_fields (pressReset h (pressMark key a))
  have hmv := pressMove_steered h (pressSpace (pressReset h (pressMark key a)))
  rw [keyPressed_stages]
  obtain ⟨m1, m2, m3, m4, _, m6, m7, m8, m9, m10, m11, _, _⟩ := hmv
  obtain ⟨s1, s2, s3, s4, s5, s6, s7, s8, s9, s10, _⟩ := hsp
  obtain ⟨r1, _, r3, r4, r5, r6, r7, r8, r9, r10, _, r12, _⟩ := hr
  obtain ⟨k1, k2, _, _, _, _⟩ := hm
  refine ⟨by rw [m1, s1, r1, k1], by rw [m2, s2, r4], by rw [m3, s3, r3], by rw [m4, s4, r5],
    by rw [m6, s5, r6], by rw [m7, s6, r7], by rw [m9, s7, r12, k2], by rw [m10, s8, r9],
    by rw [m11, s9, r10], ?_⟩
  rw [m8, s10, r1, k1, r8, r3]
  by_cases hspace : Function.update a.keymap key true Key.space = true
  · simp [hspace]; norm_num
  · simp [hspace]

/-! ## Key releases -/

/-- A key release as a chain of steering steps on the state with the key
unmarked. -/
theorem keyReleased_chain (h : Host) (key : Int) (a : App) :
    keyReleased h key a =
      landerStep (fun km => !km h.keyDown) (fun l => { l with acceleration := ⟨0, 0, 0⟩ })
      (landerStep (fun km => !km h.keyUp) (fun l => { l with acceleration := ⟨0, 0, 0⟩ })
      (landerStep (fun km => !km h.keyRight) (fun l => { l with turnAcceleration := 0 })
      (landerStep (fun km => !km h.keyLeft) (fun l => { l with turnAcceleration := 0 })
      (landerStep (fun km => !km Key.A || !km Key.a)
        (fun l => { l with appliedThrust := ⟨0, 0, 0⟩ })
      (landerStep (fun km => !km Key.D || !km Key.d)
        (fun l => { l with appliedThrust := ⟨0, 0, 0⟩ })
      (landerStep (fun km => !km Key.S || !km Key.s)
        (fun l => { l with appliedThrust := ⟨0, 0, 0⟩ })
      (landerStep (fun km => !km Key.W || !km Key.w)
        (fun l => { l with appliedThrust := ⟨0, 0, 0⟩ })
      (landerStep (fun km => !km Key.space)
        (fun l => { l with appliedThrust := ⟨0, 0, 0⟩ })
        { a with keymap := Function.update a.keymap key false })))))))) := rfl

/-- A key release changes the key map and steering fields only. -/
theorem keyReleased_fields (h : Host) (key : Int) (a : App) :
    (keyReleased h key a).keymap = Function.update a.keymap key false ∧
    (keyReleased h key a).gameOver = a.gameOver ∧
    (keyReleased h key a).exploded = a.exploded ∧
    (keyReleased h key a).inBounds = a.inBounds ∧
    (keyReleased h key a).standBy = a.standBy ∧
    a.lander.steeredFrom (keyReleased h key a).lander := by
  rw [keyReleased_chain]
  have hs : ∀ (k : (Int → Bool) → Bool) (f : Ship → Ship) (b c : App),
      (∀ l : Ship, l.steeredFrom (f l)) → steeredFrom c b → steeredFrom c (landerStep k f b) :=
    fun k f b c hf hb => steeredFrom_trans hb (landerStep_steered k f b hf)
  have hid : ∀ l : Ship, ∀ v : Vec3, l.steeredFrom { l with appliedThrust := v } :=
    fun l v => ⟨rfl, rfl, rfl, rfl, rfl, rfl, rfl, rfl⟩
  have hturn : ∀ l : Ship, ∀ q : ℚ, l.steeredFrom { l with turnAcceleration := q } :=
    fun l q => ⟨rfl, rfl, rfl, rfl, rfl, rfl, rfl, rfl⟩
  have hacc : ∀ l : Ship, ∀ v : Vec3, l.steeredFrom { l with acceleration := v } :=
    fun l v => ⟨rfl, rfl, rfl, rfl, rfl, rfl, rfl, rfl⟩
  change steeredFrom { a with keymap := Function.update a.keymap key false } _
  exact hs _ _ _ _ (fun l => hacc l _) (hs _ _ _ _ (fun l => hacc l _)
    (hs _ _ _ _ (fun l => hturn l _) (hs _ _ _ _ (fun l => hturn l _)
    (hs _ _ _ _ (fun l => hid l _) (hs _ _ _ _ (fun l => hid l _) (hs _ _ _ _ (fun l => hid l _)
    (hs _ _ _ _ (fun l => hid l _) (hs _ _ _ _ (fun l => hid l _)
    (steeredFrom_refl { a with keymap := Function.update a.keymap key false })))))))))

/-- A steering step keeps the key map. -/
theorem landerStep_keymap (k : (Int → Bool) → Bool) (f : Ship → Ship) (a : App) :
    (landerStep k f a).keymap = a.keymap := (landerStep_fields k f a).1

/-- A steering step that clears the thrust. -/
theorem landerStep_clear (k : (Int → Bool) → Bool) (a : App) :
    (landerStep k (fun l => { l with appliedThrust := ⟨0, 0, 0⟩ }) a).lander.appliedThrust =
      (if k a.keymap then ⟨0, 0, 0⟩ else a.lander.appliedThrust) := by
  rw [(landerStep_fields k _ a).2.1]
  split_ifs <;> rfl

/-- A steering step that writes another field keeps the thrust vector. -/
theorem landerStep_keeps_applied (k : (Int → Bool) → Bool) (f : Ship → Ship) (a : App)
    (hf : ∀ l : Ship, (f l).appliedThrust = l.appliedThrust) :
    (landerStep k f a).lander.appliedThrust = a.lander.appliedThrust := by
  rw [(landerStep_fields k f a).2.1]
  split_ifs
  · exact hf a.lander
  · rfl

/-- A steering step that writes the manual acceleration keeps the thrust vector. -/
theorem landerStep_applied_of_accel (k : (Int → Bool) → Bool) (v : Vec3) (a : App) :
    (landerStep k (fun l => { l with acceleration := v }) a).lander.appliedThrust =
      a.lander.appliedThrust :=
  landerStep_keeps_applied k _ a (fun _ => rfl)

/-- A steering step that writes the turn acceleration keeps the thrust vector. -/
theorem landerStep_applied_of_turn (k : (Int → Bool) → Bool) (q : Ship → ℚ) (a : App) :
    (landerStep k (fun l => { l with turnAcceleration := q l }) a).lander.appliedThrust =
      a.lander.appliedThrust :=
  landerStep_keeps_applied k _ a (fun _ => rfl)

/-- The thrust vector that a key release leaves, as a cascade over the five
tests of `keyReleased` on the key map with the key unmarked. -/
theorem keyReleased_applied (h : Host) (key : Int) (a : App) :
    (keyReleased h key a).lander.appliedThrust =
      (if (!Function.update a.keymap key false Key.A || !Function.update a.keymap key false Key.a)
        then ⟨0, 0, 0⟩ else
      if (!Function.update a.keymap key false Key.D || !Function.update a.keymap key false Key.d)
        then ⟨0, 0, 0⟩ else
      if (!Function.update a.keymap key false Key.S || !Function.update a.keymap key false Key.s)
        then ⟨0, 0, 0⟩ else
      if (!Function.update a.keymap key false Key.W || !Function.update a.keymap key false Key.w)
        then ⟨0, 0, 0⟩ else
      if (!Function.update a.keymap key false Key.space) then ⟨0, 0, 0⟩
      else a.lander.appliedThrust) := by
  rw [keyReleased_chain]
  rw [landerStep_applied_of_accel, landerStep_applied_of_accel, landerStep_applied_of_turn,
    landerStep_applied_of_turn, landerStep_clear, landerStep_clear, landerStep_clear,
    landerStep_clear, landerStep_clear]
  simp only [landerStep_keymap]

/-- C20. A key release sets `appliedThrust` to the zero vector whenever, with
the released key unmarked, space and both cases of each of W, S, D and A are not
all still held (the same holds when they were not all held before the
release); only when all nine are still held does the thrust vector stay.  In
particular releasing a key unrelated to thrust cancels the thrust of a thrust
key that is still held down. -/
theorem keyReleased_cancels_thrust (h : Host) (key : Int) (a : App) :
    (¬ (Function.update a.keymap key false Key.space = true ∧
        Function.update a.keymap key false Key.W = true ∧
        Function.update a.keymap key false Key.w = true ∧
        Function.update a.keymap key false Key.S = true ∧
        Function.update a.keymap key false Key.s = true ∧
        Function.update a.keymap key false Key.D = true ∧
        Function.update a.keymap key false Key.d = true ∧
        Function.update a.keymap key false Key.A = true ∧
        Function.update a.keymap key false Key.a = true) →
      (keyReleased h key a).lander.appliedThrust = Vec3.zero) ∧
    (¬ (a.keymap Key.space = true ∧ a.keymap Key.W = true ∧ a.keymap Key.w = true ∧
        a.keymap Key.S = true ∧ a.keymap Key.s = true ∧ a.keymap Key.D = true ∧
        a.keymap Key.d = true ∧ a.keymap Key.A = true ∧ a.keymap Key.a = true) →
      (keyReleased h key a).lander.appliedThrust = Vec3.zero) ∧
    ((Function.update a.keymap key false Key.space = true ∧
        Function.update a.keymap key false Key.W = true ∧
        Function.update a.keymap key false Key.w = true ∧
        Function.update a.keymap key false Key.S = true ∧
        Function.update a.keymap key false Key.s = true ∧
        Function.update a.keymap key false Key.D = true ∧
        Function.update a.keymap key false Key.d = true ∧
        Function.update a.keymap key false Key.A = true ∧
        Function.update a.keymap key false Key.a = true) →
      (keyReleased h key a).lander.appliedThrust = a.lander.appliedThrust) := by
  have hafter : ¬ (Function.update a.keymap key false Key.space = true ∧
        Function.update a.keymap key false Key.W = true ∧
        Function.update a.keymap key false Key.w = true ∧
        Function.update a.keymap key false Key.S = true ∧
        Function.update a.keymap key false Key.s = true ∧
        Function.update a.keymap key false Key.D = true ∧
        Function.update a.keymap key false Key.d = true ∧
        Function.update a.keymap key false Key.A = true ∧
        Function.update a.keymap key false Key.a = true) →
      (keyReleased h key a).lander.appliedThrust = Vec3.zero := by
    intro hnot
    rw [keyReleased_applied]
    split_ifs with h1 h2 h3 h4 h5
    · rfl
    · rfl
    · rfl
    · rfl
    · rfl
    · exfalso
      apply hnot
      simp only [Bool.or_eq_true, Bool.not_eq_true', not_or, Bool.not_eq_false] at h1 h2 h3 h4 h5
      exact ⟨h5, h4.1, h4.2, h3.1, h3.2, h2.1, h2.2, h1.1, h1.2⟩
  have hmono : ∀ k : Int, Function.update a.keymap key false k = true → a.keymap k = true := by
    intro k hk
    by_cases hkk : k = key
    · rw [hkk, Function.update_same] at hk; cases hk
    · rwa [Function.update_noteq hkk] at hk
  refine ⟨hafter, ?_, ?_⟩
  · intro hnot
    apply hafter
    intro hall
    exact hnot ⟨hmono _ hall.1, hmono _ hall.2.1, hmono _ hall.2.2.1, hmono _ hall.2.2.2.1,
      hmono _ hall.2.2.2.2.1, hmono _ hall.2.2.2.2.2.1, hmono _ hall.2.2.2.2.2.2.1,
      hmono _ hall.2.2.2.2.2.2.2.1, hmono _ hall.2.2.2.2.2.2.2.2⟩
  · intro hall
    rw [keyReleased_applied]
    simp [hall.1, hall.2.1, hall.2.2.1, hall.2.2.2.1, hall.2.2.2.2.1, hall.2.2.2.2.2.1,
      hall.2.2.2.2.2.2.1, hall.2.2.2.2.2.2.2.1, hall.2.2.2.2.2.2.2.2]

/-- Witness for C20: W is held with its thrust applied; releasing the unrelated
key `x` (code 120) zeroes the thrust vector. -/
theorem keyReleased_cancels_thrust_witness :
    thrustingApp.keymap Key.W = true ∧
    thrustingApp.lander.appliedThrust = ⟨0, 0, -25⟩ ∧
    (keyReleased sampleHost 120 thrustingApp).keymap Key.W = true ∧
    (keyReleased sampleHost 120 thrustingApp).lander.appliedThrust = Vec3.zero :=
  ⟨by simp [thrustingApp], rfl,
   by rw [(keyReleased_fields sampleHost 120 thrustingApp).1]
      simp [thrustingApp, Function.update, Key.W],
   (keyReleased_cancels_thrust sampleHost 120 thrustingApp).1
     (by simp [thrustingApp, Function.update, Key.W, Key.space])⟩

/-! ## Thrust without fuel -/

/-- C17: the code at the failing input.  With the tank empty (fuel 0, not
exploded, thrust setting 25, no thrust applied) pressing W sets the non-zero
thrust `(0, 0, -25)`, and pressing the up arrow sets `(0, 25, 0)`, the very
thrust that the space branch refuses without fuel; neither burns fuel.  Only the
space branch carries the fuel / exploded test. -/
theorem keyPressed_thrust_without_fuel :
    emptyTankApp.lander.fuel = 0 ∧ emptyTankApp.exploded = false ∧
    emptyTankApp.lander.appliedThrust = ⟨0, 0, 0⟩ ∧
    (keyPressed sampleHost Key.W emptyTankApp).lander.appliedThrust = ⟨0, 0, -25⟩ ∧
    (keyPressed sampleHost sampleHost.keyUp emptyTankApp).lander.appliedThrust = ⟨0, 25, 0⟩ ∧
    (keyPressed sampleHost sampleHost.keyUp emptyTankApp).lander.fuel = 0 ∧
    (keyPressed sampleHost Key.space emptyTankApp).lander.appliedThrust = ⟨0, 0, 0⟩ := by
  refine ⟨rfl, rfl, rfl, ?_, ?_, ?_, ?_⟩ <;>
    norm_num [keyPressed, emptyTankApp, sampleApp, sampleShip, sampleHost, Function.update,
      Key.W, Key.w, Key.S, Key.s, Key.D, Key.d, Key.A, Key.a, Key.E, Key.e, Key.R, Key.r,
      Key.space, Vec3.smul, Ship.setPosition, Ship.getShipLoaded]

/-! ## Invariants over ticks and key events -/

/-- The values that `setup` leaves. -/
theorem setup_fields (h : Host) (raw : App) :
    (setup h raw).lander.thrust = 25 ∧
    (setup h raw).lander.fuel = 200 ∧
    (setup h raw).lander.landed = false ∧
    (setup h raw).lander.velocity = ⟨0, 0, 0⟩ ∧
    (setup h raw).lander.rotation = 0 ∧
    (setup h raw).exploded = false ∧
    (setup h raw).gameOver = false ∧
    (setup h raw).standBy = true ∧
    (setup h raw).lander.shipLoaded = h.landerLoads ∧
    (h.landerLoads = true → (setup h raw).lander.position = ⟨-50, 30, -50⟩) := by
  cases hl : h.landerLoads <;>
    simp [setup, Ship.construct, Ship.updateBoundingBox, Ship.setPosition, Ship.getShipLoaded, hl]

/-- What `checkCollisions` can do to the thrust setting, `landed`, `exploded`
and the fuel: the fuel stays; either the lander is set landed with the thrust
cut, or thrust and `landed` stay; `exploded` is raised or stays. -/
theorem checkCollisions_lifecycle (w : World) (a : App) :
    (checkCollisions w a).lander.fuel = a.lander.fuel ∧
    (((checkCollisions w a).lander.thrust = 0 ∧ (checkCollisions w a).lander.landed = true) ∨
      ((checkCollisions w a).lander.thrust = a.lander.thrust ∧
        (checkCollisions w a).lander.landed = a.lander.landed)) ∧
    ((checkCollisions w a).exploded = true ∨ (checkCollisions w a).exploded = a.exploded) := by
  by_cases hm : w.boxQuery a.lander.shipBBox = [] ∨ 0 ≤ a.lander.velocity.y
  · rw [checkCollisions_miss w a hm]
    exact ⟨rfl, Or.inr ⟨rfl, rfl⟩, Or.inr rfl⟩
  · have hhit : w.boxQuery a.lander.shipBBox ≠ [] := fun h => hm (Or.inl h)
    have hv : a.lander.velocity.y < 0 := not_le.mp (fun h => hm (Or.inr h))
    rw [checkCollisions_hit w a hhit hv]
    split_ifs
    · exact ⟨rfl, Or.inl ⟨rfl, rfl⟩, Or.inr rfl⟩
    · exact ⟨rfl, Or.inr ⟨rfl, rfl⟩, Or.inr rfl⟩
    · exact ⟨rfl, Or.inr ⟨rfl, rfl⟩, Or.inl rfl⟩
    · exact ⟨rfl, Or.inr ⟨rfl, rfl⟩, Or.inr rfl⟩
    · exact ⟨rfl, Or.inr ⟨rfl, rfl⟩, Or.inr rfl⟩

/-- The integration steps keep the fuel. -/
theorem integrate_keeps_fuel (s : Ship) : s.integrate.integrateTurn.fuel = s.fuel := by
  cases hl : s.shipLoaded <;>
    simp [Ship.integrate, Ship.integrateTurn, Ship.setPosition, Ship.setRotation,
      Ship.getShipLoaded, Ship.addForces, hl]

/-- What one call of `update` can do to the thrust setting, `landed`, `exploded`
and the fuel: the fuel stays; `exploded` is raised or stays; and either the
thrust is cut, or thrust and `landed` stay and the lander is not exploded
afterwards unless the call was idle. -/
theorem update_lifecycle (w : World) (a : App) :
    (update w a).lander.fuel = a.lander.fuel ∧
    ((update w a).exploded = true ∨ (update w a).exploded = a.exploded) ∧
    ((update w a).lander.thrust = 0 ∨
      ((update w a).lander.thrust = a.lander.thrust ∧
        (update w a).lander.landed = a.lander.landed ∧
        (update w a).exploded = a.exploded)) := by
  by_cases hrun : a.gameOver = false ∧ a.standBy = false
  · have hb : (beforeCollisions a).lander.fuel = a.lander.fuel ∧
        (beforeCollisions a).lander.thrust = a.lander.thrust ∧
        (beforeCollisions a).lander.landed = a.lander.landed ∧
        (beforeCollisions a).exploded = a.exploded := by
      cases hl : a.lander.shipLoaded <;>
        simp [beforeCollisions, Ship.updateBoundingBox, Ship.getShipLoaded, hl]
    obtain ⟨c1, c2, c3⟩ := checkCollisions_lifecycle w (beforeCollisions a)
    rw [hb.1] at c1
    rw [hb.2.1, hb.2.2.1] at c2
    rw [hb.2.2.2] at c3
    have hk := integrate_keeps (checkCollisions w (beforeCollisions a)).lander
    have hkf := integrate_keeps_fuel (checkCollisions w (beforeCollisions a)).lander
    have hex := (afterCollisions_flags w (checkCollisions w (beforeCollisions a))).1
    have hl := afterCollisions_lander w (checkCollisions w (beforeCollisions a))
    rw [update_running w a hrun.1 hrun.2, hex, hl]
    cases hce : (checkCollisions w (beforeCollisions a)).exploded
    · rw [hce] at c3
      rw [if_neg Bool.false_ne_true]
      refine ⟨by rw [hkf, c1], c3, ?_⟩
      rcases c2 with ⟨t0, _⟩ | ⟨t1, t2⟩
      · left; rw [hk.2.2.1, t0]
      · right
        refine ⟨by rw [hk.2.2.1, t1], by rw [hk.1, t2], ?_⟩
        rcases c3 with c3 | c3
        · cases c3
        · exact c3
    · rw [if_pos rfl]
      exact ⟨by rw [← c1, ← hkf], Or.inl rfl, Or.inl rfl⟩
  · rw [update_idle w a]
    · exact ⟨rfl, Or.inr rfl, Or.inr ⟨rfl, rfl, rfl⟩⟩
    · cases hg : a.gameOver <;> cases hs : a.standBy <;> simp_all

/-- Every event keeps the fuel a whole number between 0 and 200. -/
theorem step_fuel_range (h : Host) (e : Event) (a : App)
    (hinv : ∃ n : ℕ, n ≤ 200 ∧ a.lander.fuel = n) :
    ∃ n : ℕ, n ≤ 200 ∧ (step h e a).lander.fuel = n := by
  obtain ⟨n, hn, hf⟩ := hinv
  cases e with
  | tick w => exact ⟨n, hn, ((update_lifecycle w a).1).trans hf⟩
  | release key => exact ⟨n, hn, ((keyReleased_fields h key a).2.2.2.2.2.2.2.1).trans hf⟩
  | press key =>
    show ∃ n : ℕ, n ≤ 200 ∧ (keyPressed h key a).lander.fuel = n
    cases hr : resetFires key a
    · rw [(keyPressed_no_reset h key a hr).2.2.2.2.2.2.2.2.2]
      split_ifs with hc
      · have hpos : 0 < n := by
          have : (0 : ℚ) < n := by rw [← hf]; exact hc.2.1
          exact_mod_cast this
        refine ⟨n - 1, by omega, ?_⟩
        rw [hf]
        have : 1 ≤ n := hpos
        push_cast [Nat.cast_sub this]
        ring
      · exact ⟨n, hn, hf⟩
    · rw [(keyPressed_reset h key a hr).2.2.2.2.2.2.2.2.2]
      split_ifs
      · exact ⟨199, by omega, by norm_num⟩
      · exact ⟨200, by omega, by norm_num⟩

/-- Along every sequence of events the fuel stays a whole number between 0 and
200. -/
theorem runEvents_fuel_range (h : Host) (es : List Event) (a : App)
    (hinv : ∃ n : ℕ, n ≤ 200 ∧ a.lander.fuel = n) :
    ∃ n : ℕ, n ≤ 200 ∧ (runEvents h es a).lander.fuel = n := by
  induction es generalizing a with
  | nil => exact hinv
  | cons e es ih => exact ih (step h e a) (step_fuel_range h e a hinv)

/-- C18. In every state reached from `setup` by ticks, key presses and key
releases the fuel is a whole number with `0 <= fuel <= 200`.  Fuel changes only
in `keyPressed`: ticks and key releases keep it; a press without reset lowers it
by exactly 1 when space is held, fuel is positive and the lander has not
exploded, and keeps it otherwise; a press with reset (game over, R or r held)
sets it to 200, less the 1 that the same call burns when space is held; and no
other event ever raises it. -/
theorem fuel_range (h : Host) (raw : App) (es : List Event) (w : World) (key : Int)
    (e : Event) (a : App) :
    (∃ n : ℕ, n ≤ 200 ∧ (runEvents h es (setup h raw)).lander.fuel = n) ∧
    (update w a).lander.fuel = a.lander.fuel ∧
    (keyReleased h key a).lander.fuel = a.lander.fuel ∧
    (resetFires key a = false →
      (keyPressed h key a).lander.fuel =
        (if Function.update a.keymap key true Key.space = true ∧ a.lander.fuel > 0 ∧
            a.exploded = false
          then a.lander.fuel - 1 else a.lander.fuel)) ∧
    (resetFires key a = true →
      a.gameOver = true ∧
      (keyPressed h key a).lander.fuel =
        (if Function.update a.keymap key true Key.space = true then 200 - 1 else 200)) ∧
    (a.lander.fuel < (step h e a).lander.fuel →
      ∃ k : Int, e = Event.press k ∧ resetFires k a = true ∧ a.gameOver = true) := by
  have hgo : ∀ k : Int, resetFires k a = true → a.gameOver = true := by
    intro k hr
    unfold resetFires at hr
    cases hg : a.gameOver
    · rw [hg, Bool.and_false] at hr; cases hr
    · rfl
  refine ⟨?_, (update_lifecycle w a).1, (keyReleased_fields h key a).2.2.2.2.2.2.2.1, ?_, ?_, ?_⟩
  · exact runEvents_fuel_range h es (setup h raw) ⟨200, le_refl _, by
      rw [(setup_fields h raw).2.1]; norm_num⟩
  · intro hr
    exact (keyPressed_no_reset h key a hr).2.2.2.2.2.2.2.2.2
  · intro hr
    refine ⟨hgo key hr, ?_⟩
    rw [(keyPressed_reset h key a hr).2.2.2.2.2.2.2.2.2]
    split_ifs <;> norm_num
  · intro hlt
    cases e with
    | tick w2 =>
      exfalso
      have : (update w2 a).lander.fuel = a.lander.fuel := (update_lifecycle w2 a).1
      have hlt2 : a.lander.fuel < (update w2 a).lander.fuel := hlt
      rw [this] at hlt2
      exact lt_irrefl _ hlt2
    | release k =>
      exfalso
      have : (keyReleased h k a).lander.fuel = a.lander.fuel :=
        (keyReleased_fields h k a).2.2.2.2.2.2.2.1
      have hlt2 : a.lander.fuel < (keyReleased h k a).lander.fuel := hlt
      rw [this] at hlt2
      exact lt_irrefl _ hlt2
    | press k =>
      cases hr : resetFires k a
      · exfalso
        have hlt2 : a.lander.fuel < (keyPressed h k a).lander.fuel := hlt
        rw [(keyPressed_no_reset h k a hr).2.2.2.2.2.2.2.2.2] at hlt2
        split_ifs at hlt2
        · linarith
        · exact lt_irrefl _ hlt2
      · exact ⟨k, rfl, hr, hgo k hr⟩

/-- Witness for C18: the short game ends with 199 units of fuel, pressing R
after a landing with 150 units left refills the tank, and that press is a reset. -/
theorem fuel_range_witness :
    (∃ n : ℕ, n ≤ 200 ∧
      (runEvents sampleHost shortGame (setup sampleHost (sampleApp ⟨0, 0, 0⟩))).lander.fuel = n) ∧
    ((landedApp (fun _ => false)).gameOver = true ∧
      (keyPressed sampleHost Key.R (landedApp (fun _ => false))).lander.fuel =
        (if Function.update (landedApp (fun _ => false)).keymap Key.R true Key.space = true
          then 200 - 1 else 200)) ∧
    (∃ k : Int, Event.press Key.R = Event.press k ∧
      resetFires k (landedApp (fun _ => false)) = true ∧
      (landedApp (fun _ => false)).gameOver = true) :=
  have h := fuel_range sampleHost (sampleApp ⟨0, 0, 0⟩) shortGame emptyWorld Key.R
    (Event.press Key.R) (landedApp (fun _ => false))
  have hr : resetFires Key.R (landedApp (fun _ => false)) = true := by
    simp [resetFires, landedApp, Function.update, Key.R]
  ⟨h.1, h.2.2.2.2.1 hr,
   h.2.2.2.2.2 (by
     show (landedApp (fun _ => false)).lander.fuel <
       (keyPressed sampleHost Key.R (landedApp (fun _ => false))).lander.fuel
     rw [(h.2.2.2.2.1 hr).2]
     norm_num [landedApp, sampleApp, Function.update, Key.R, Key.space])⟩

/-! ## Exploded, and the reset -/

/-- One tick of the sample lander falling at 8 units per second onto terrain:
the lander explodes, rebounds, and the game is not over. -/
theorem sample_tick_explodes :
    (update touchingWorld (sampleApp ⟨0, -8, 0⟩)).exploded = true ∧
    (update touchingWorld (sampleApp ⟨0, -8, 0⟩)).gameOver = false ∧
    (update touchingWorld (sampleApp ⟨0, -8, 0⟩)).standBy = false ∧
    (update touchingWorld (sampleApp ⟨0, -8, 0⟩)).lander.landed = false ∧
    (update touchingWorld (sampleApp ⟨0, -8, 0⟩)).lander.thrust = 0 ∧
    (update touchingWorld (sampleApp ⟨0, -8, 0⟩)).lander.velocity = ⟨0, 33 / 5, 0⟩ := by
  have hhit : touchingWorld.boxQuery
      (beforeCollisions (sampleApp ⟨0, -8, 0⟩)).lander.shipBBox ≠ [] := by
    simp [touchingWorld]
  have hv : (beforeCollisions (sampleApp ⟨0, -8, 0⟩)).lander.velocity.y < 0 := by
    norm_num [beforeCollisions, sampleApp, sampleShip, Ship.updateBoundingBox, Ship.getShipLoaded]
  have hf := afterCollisions_flags touchingWorld
    (checkCollisions touchingWorld (beforeCollisions (sampleApp ⟨0, -8, 0⟩)))
  have hl := afterCollisions_lander touchingWorld
    (checkCollisions touchingWorld (beforeCollisions (sampleApp ⟨0, -8, 0⟩)))
  rw [update_running _ _ rfl rfl]
  rw [checkCollisions_hit _ _ hhit hv] at hf hl ⊢
  refine ⟨?_, ?_, ?_, ?_, ?_, ?_⟩
  · rw [hf.1]
    norm_num [beforeCollisions, sampleApp, sampleShip, sampleEmitter, Ship.updateBoundingBox,
      Ship.getShipLoaded, withImpulse]
  · rw [hf.2.2.2.2.2.2]
    norm_num [beforeCollisions, sampleApp, sampleShip, sampleEmitter, Ship.updateBoundingBox,
      Ship.getShipLoaded, withImpulse]
  · rw [hf.2.2.2.2.2.1]
    norm_num [beforeCollisions, sampleApp, sampleShip, sampleEmitter, Ship.updateBoundingBox,
      Ship.getShipLoaded, withImpulse]
  · rw [hl]
    norm_num [beforeCollisions, sampleApp, sampleShip, sampleEmitter, Ship.updateBoundingBox,
      Ship.getShipLoaded, withImpulse, Ship.integrate, Ship.integrateTurn, Ship.setPosition,
      Ship.setRotation, Ship.addForces]
  · rw [hl]
    norm_num [beforeCollisions, sampleApp, sampleShip, sampleEmitter, Ship.updateBoundingBox,
      Ship.getShipLoaded, withImpulse, Ship.integrate, Ship.integrateTurn, Ship.setPosition,
      Ship.setRotation, Ship.addForces]
  · rw [hl]
    norm_num [beforeCollisions, sampleApp, sampleShip, sampleEmitter, Ship.updateBoundingBox,
      Ship.getShipLoaded, withImpulse, Ship.integrate, Ship.integrateTurn, Ship.setPosition,
      Ship.setRotation, Ship.addForces, Vec3.add, Vec3.scale, Vec3.div, Ship.getPosition,
      sampleModel, ParticleEmitter.start, Model.clear]

/-- C12, counterexample.  The tick in which the sample lander explodes leaves
`gameOver` false, and pressing R then restores nothing: the lander is still
exploded, its thrust setting still 0 and its velocity still `(0, 33/5, 0)`.  And
after a landing, pressing R while space is held leaves 199 units of fuel, not
200. -/
theorem reset_ignored_after_explosion :
    (update touchingWorld (sampleApp ⟨0, -8, 0⟩)).exploded = true ∧
    (update touchingWorld (sampleApp ⟨0, -8, 0⟩)).gameOver = false ∧
    (keyPressed sampleHost Key.R (update touchingWorld (sampleApp ⟨0, -8, 0⟩))).exploded = true ∧
    (keyPressed sampleHost Key.R (update touchingWorld (sampleApp ⟨0, -8, 0⟩))).lander.thrust = 0 ∧
    (keyPressed sampleHost Key.R (update touchingWorld (sampleApp ⟨0, -8, 0⟩))).lander.velocity =
      ⟨0, 33 / 5, 0⟩ ∧
    (landedApp (fun k => decide (k = Key.space))).gameOver = true ∧
    (keyPressed sampleHost Key.R (landedApp (fun k => decide (k = Key.space)))).lander.fuel
      = 199 := by
  obtain ⟨hex, hgo, _, _, hth, hvel⟩ := sample_tick_explodes
  have hno : resetFires Key.R (update touchingWorld (sampleApp ⟨0, -8, 0⟩)) = false := by
    unfold resetFires
    rw [hgo, Bool.and_false]
  have hk := keyPressed_no_reset sampleHost Key.R _ hno
  have hyes : resetFires Key.R (landedApp (fun k => decide (k = Key.space))) = true := by
    simp [resetFires, landedApp, Function.update, Key.R]
  have hk2 := keyPressed_reset sampleHost Key.R _ hyes
  refine ⟨hex, hgo, by rw [hk.2.2.1, hex], by rw [hk.2.2.2.2.1, hth],
    by rw [hk.2.2.2.2.2.2.2.1, hvel], rfl, ?_⟩
  rw [hk2.2.2.2.2.2.2.2.2.2]
  simp [landedApp, Function.update, Key.R, Key.space]

/-- C12, amended.  Pressing R (or r) resets only while `gameOver` holds.  Then it
restores velocity `(0,0,0)`, rotation 0, thrust 25, `landed = false`,
`exploded = false`, `gameOver = false`, for a loaded lander the position
`(-50,30,-50)`, and fuel 200, or 199 when space is held, since the same call then
burns one unit; these are the values `setup` leaves.  While `gameOver` is false
the press changes none of exploded, landed, gameOver, thrust, position, velocity
and rotation. -/
theorem reset_restores_spawn (h : Host) (raw : App) (key : Int) (a : App)
    (hkey : key = Key.R ∨ key = Key.r) :
    (a.gameOver = true →
      (keyPressed h key a).lander.velocity = ⟨0, 0, 0⟩ ∧
      (keyPressed h key a).lander.rotation = 0 ∧
      (keyPressed h key a).lander.thrust = 25 ∧
      (keyPressed h key a).lander.landed = false ∧
      (keyPressed h key a).exploded = false ∧
      (keyPressed h key a).gameOver = false ∧
      (a.lander.shipLoaded = true → (keyPressed h key a).lander.position = ⟨-50, 30, -50⟩) ∧
      (keyPressed h key a).lander.fuel = (if a.keymap Key.space = true then 199 else 200)) ∧
    ((setup h raw).lander.velocity = ⟨0, 0, 0⟩ ∧ (setup h raw).lander.rotation = 0 ∧
      (setup h raw).lander.thrust = 25 ∧ (setup h raw).lander.landed = false ∧
      (setup h raw).exploded = false ∧ (setup h raw).gameOver = false ∧
      (h.landerLoads = true → (setup h raw).lander.position = ⟨-50, 30, -50⟩) ∧
      (setup h raw).lander.fuel = 200) ∧
    (a.gameOver = false →
      (keyPressed h key a).exploded = a.exploded ∧
      (keyPressed h key a).lander.landed = a.lander.landed ∧
      (keyPressed h key a).gameOver = false ∧
      (keyPressed h key a).lander.thrust = a.lander.thrust ∧
      (keyPressed h key a).lander.position = a.lander.position ∧
      (keyPressed h key a).lander.velocity = a.lander.velocity ∧
      (keyPressed h key a).lander.rotation = a.lander.rotation) := by
  refine ⟨?_, ?_, ?_⟩
  · intro hgo
    have hyes : resetFires key a = true := by
      unfold resetFires
      rcases hkey with hk | hk <;> subst hk <;> simp [hgo]
    have hk := keyPressed_reset h key a hyes
    have hsp : Function.update a.keymap key true Key.space = a.keymap Key.space := by
      apply Function.update_noteq
      rcases hkey with hk | hk <;> rw [hk] <;> decide
    refine ⟨hk.2.2.2.2.2.2.2.1, hk.2.2.2.2.2.2.2.2.1, hk.2.2.2.2.1, hk.2.2.2.2.2.1, hk.2.2.1,
      hk.2.1, ?_, ?_⟩
    · intro hl
      rw [hk.2.2.2.2.2.2.1, hl]; rfl
    · rw [hk.2.2.2.2.2.2.2.2.2, hsp]
  · have hs := setup_fields h raw
    exact ⟨hs.2.2.2.1, hs.2.2.2.2.1, hs.1, hs.2.2.1, hs.2.2.2.2.2.1, hs.2.2.2.2.2.2.1,
      hs.2.2.2.2.2.2.2.2.2, hs.2.1⟩
  · intro hgo
    have hno : resetFires key a = false := by
      unfold resetFires
      rw [hgo, Bool.and_false]
    have hk := keyPressed_no_reset h key a hno
    exact ⟨hk.2.2.1, hk.2.2.2.2.2.1, hk.2.1.trans hgo, hk.2.2.2.2.1, hk.2.2.2.2.2.2.1,
      hk.2.2.2.2.2.2.2.1, hk.2.2.2.2.2.2.2.2.1⟩

/-- Witness for C12 as amended: after a landing at `(3,1,4)` with 150 units of
fuel left, pressing R puts the lander back at the spawn point with a full tank. -/
theorem reset_restores_spawn_witness :
    (landedApp (fun _ => false)).gameOver = true ∧
    (keyPressed sampleHost Key.R (landedApp (fun _ => false))).lander.position =
      ⟨-50, 30, -50⟩ ∧
    (keyPressed sampleHost Key.R (landedApp (fun _ => false))).lander.fuel = 200 ∧
    (keyPressed sampleHost Key.R (landedApp (fun _ => false))).lander.thrust = 25 ∧
    (keyPressed sampleHost Key.R (landedApp (fun _ => false))).gameOver = false :=
  have h := (reset_restores_spawn sampleHost (sampleApp ⟨0, 0, 0⟩) Key.R
    (landedApp (fun _ => false)) (Or.inl rfl)).1 rfl
  ⟨rfl, h.2.2.2.2.2.2.1 rfl, h.2.2.2.2.2.2.2, h.2.2.1, h.2.2.2.2.2.1⟩

end LunarLander
